import Mathlib

/-!
The pin registry, session layer and soft-PWM handles of `rpio.go`.

A shallow embedding of the Go wrapper `src/rpio.go`.  The package state is the
Go variable `setupOK` together with the two C globals the cgo preamble reads and
writes (`gpio_direction`, `gpio_mode`).  The C library behind the wrapper
(`c_gpio.c`, `common.c`, `soft_pwm.c`) is not part of the sources: it is a
parameter of every definition (`Collab`), and every call into it is recorded in
a trace so that "no hardware call is made" can be stated.
-/

namespace Rpio

/-- The integer constants that `rpio.go` takes from the C headers
(`C.PUD_OFF`, `C.INPUT`, `C.BOARD`, `C.SETUP_OK`, ...).  The headers are not
part of the sources, so the values are a parameter of every definition. -/
structure Consts where
  PUD_OFF : Int
  PUD_DOWN : Int
  PUD_UP : Int
  HIGH : Int
  INPUT : Int
  OUTPUT : Int
  ALT0 : Int
  BOARD : Int
  BCM : Int
  MODE_UNKNOWN : Int
  SETUP_OK : Int
  SETUP_DEVMEM_FAIL : Int
  SETUP_MALLOC_FAIL : Int
  SETUP_CPUINFO_FAIL : Int
  SETUP_NO_PERI_ADDR : Int

/-- The values of the constants used for the concrete runs; the pin, pull and
mode constants are those of the headers of RPi.GPIO (`c_gpio.h`, `common.h`):
INPUT is 1, OUTPUT is 0, BOARD is 10, BCM is 11, MODE_UNKNOWN is -1. -/
def rpiConsts : Consts where
  PUD_OFF := 0
  PUD_DOWN := 1
  PUD_UP := 2
  HIGH := 1
  INPUT := 1
  OUTPUT := 0
  ALT0 := 4
  BOARD := 10
  BCM := 11
  MODE_UNKNOWN := -1
  SETUP_OK := 0
  SETUP_DEVMEM_FAIL := 1
  SETUP_MALLOC_FAIL := 2
  SETUP_CPUINFO_FAIL := 4
  SETUP_NO_PERI_ADDR := 6

/-- The conversion `C.int(x)` of a Go `int`: wrap-around to 32 bits, signed. -/
def toCInt (x : Int) : Int := (x + 2 ^ 31) % 2 ^ 32 - 2 ^ 31

/-- The values of a Go `float32` as far as the comparisons of `rpio.go` see
them: not-a-number, the two infinities, or a finite value.  Every finite
`float32` is a rational number; -0 and +0 compare equal and are both `fin 0`. -/
inductive F32 where
  | nan
  | negInf
  | posInf
  | fin (q : ℚ)
  deriving DecidableEq, Repr

/-- The comparison `a <= b` of two `float32`: false when either is NaN. -/
def F32.le : F32 → F32 → Bool
  | .nan, _ => false
  | _, .nan => false
  | .negInf, _ => true
  | _, .posInf => true
  | .posInf, _ => false
  | .fin _, .negInf => false
  | .fin a, .fin b => decide (a ≤ b)

/-- The comparison `a < b` of two `float32`: false when either is NaN. -/
def F32.lt : F32 → F32 → Bool
  | .nan, _ => false
  | _, .nan => false
  | .posInf, _ => false
  | _, .negInf => false
  | .negInf, _ => true
  | .fin _, .posInf => true
  | .fin a, .fin b => decide (a < b)

/-- The errors built by `fmt.Errorf` in `rpio.go`, one constructor per message;
`%w` wrapping keeps the wrapped error. -/
inductive Error where
  /-- "The package's Setup() function either failed or has not been called" -/
  | setupNotCalled
  /-- "No access to /dev/mem. Try running as root" -/
  | noDevMem
  /-- "setup() failed: malloc failure" -/
  | mallocFailure
  /-- "Unable to open /proc/cpuinfo" -/
  | cpuinfoFailure
  /-- "Unable to determine SOC peripheral base address" -/
  | noPeriAddr
  /-- "Error setting up GPIO: setup() returned %d" -/
  | setupReturned (result : Int)
  /-- "The library isn't set up" -/
  | libraryNotSetUp
  /-- "check_gpio_priv() returned %d, expected 0" -/
  | checkGPIOPrivFailed (result : Int)
  /-- "get_gpio_number() failed with code %d" -/
  | getGPIONumberFailed (result : Int)
  /-- "channel %d's gpio value (%d) overflows uint8" -/
  | gpioOverflowsUint8 (channel value : Nat)
  /-- "Bad channel number (%d): %w" -/
  | badChannelNumber (channel : Nat) (e : Error)
  /-- "Bad channel (%d): %w" -/
  | badChannel (channel : Nat) (e : Error)
  /-- "Invalid pull up/down value: %d" -/
  | invalidPullUpDown (pullUpDown : Nat)
  /-- "Channel %d already in use" -/
  | channelInUse (channel : Nat)
  /-- "Channel %d isn't set as an output" -/
  | notAnOutput (channel : Nat)
  /-- "Channel %d isn't set up" -/
  | channelNotSetUp (channel : Nat)
  /-- "A different mode has already been set" -/
  | differentMode
  /-- "Invalid new mode (%d), must be either BOARD or BCM" -/
  | invalidNewMode (newMode : Int)
  /-- "A PWM already exists for GPIO channel %d" -/
  | pwmAlreadyExists (channel : Nat)
  /-- "The GPIO channel %d must be set up as an output for PWM" -/
  | pwmNotAnOutput (channel : Nat)
  /-- "PWM frequency must be positive, got %f" -/
  | pwmFrequencyNotPositive (frequency : F32)
  /-- "Duty cycle must be between 0 and 100. Got %f" -/
  | dutyCycleOutOfRange (dutyCycle : F32)
  /-- "Frequency must be positive; got %f" -/
  | frequencyNotPositive (frequency : F32)
  deriving DecidableEq, Repr

/-- The calls into the C library, as they appear in `rpio.go`. -/
inductive Call where
  | setup
  | cleanup
  | check_gpio_priv
  | get_gpio_number (channel : Nat)
  | gpio_function (gpio : Nat)
  | setup_gpio (gpio : Nat) (direction pud : Int)
  | output_gpio (gpio : Nat) (value : Int)
  | input_gpio (gpio : Nat)
  | pwm_exists (gpio : Nat)
  | pwm_set_duty_cycle (gpio : Nat) (dutyCycle : F32)
  | pwm_set_frequency (gpio : Nat) (frequency : F32)
  | pwm_start (gpio : Nat)
  | pwm_stop (gpio : Nat)
  deriving DecidableEq, Repr

/-- Modelled from the spec: the register-access collaborator (the C library
behind `import "C"`, absent from the sources) over a hardware state `H`.
`setup_gpio`, `output_gpio`, `setup`, `cleanup` and the four soft-PWM calls
`pwm_set_duty_cycle`, `pwm_set_frequency`, `pwm_start` and `pwm_stop` act on
the hardware;
`gpio_function`, `input_gpio`, `pwm_exists` and `check_gpio_priv` read it; the
channel resolver `get_gpio_number` is a pure function of the numbering mode and
the channel, returning the status code and the value left in `*gpio`. -/
structure Collab (H : Type) where
  setup : H → Int × H
  cleanup : H → H
  check_gpio_priv : H → Int
  get_gpio_number : Int → Nat → Int × Nat
  gpio_function : H → Nat → Int
  setup_gpio : H → Nat → Int → Int → H
  output_gpio : H → Nat → Int → H
  input_gpio : H → Nat → Int
  pwm_exists : H → Nat → Int
  pwm_set_duty_cycle : H → Nat → F32 → H
  pwm_set_frequency : H → Nat → F32 → H
  pwm_start : H → Nat → H
  pwm_stop : H → Nat → H

/-- The state of the package: the Go variable `setupOK`, the C globals
`gpio_direction` (54 entries in the library; indexed here by any pin number)
and `gpio_mode`, the hardware state, and the trace of the calls made into the C
library so far. -/
structure State (H : Type) where
  setupOK : Bool
  gpio_direction : Nat → Int
  gpio_mode : Int
  hw : H
  trace : List Call

variable {H : Type}

/-- Record a call into the C library. -/
def State.log (s : State H) (c : Call) : State H :=
  { s with trace := s.trace ++ [c] }

/-- The preamble function `int GetGPIODirection(int gpio)`. -/
def GetGPIODirection (gpio : Nat) (s : State H) : Int :=
  s.gpio_direction gpio

/-- The preamble function `SetGPIODirection(int gpio, int direction)`. -/
def SetGPIODirection (gpio : Nat) (direction : Int) (s : State H) : State H :=
  { s with gpio_direction := fun i => if i = gpio then direction else s.gpio_direction i }

/-- The preamble function `void SetGPIOMode(int mode)`. -/
def SetGPIOMode (mode : Int) (s : State H) : State H :=
  { s with gpio_mode := mode }

/-- The preamble function `int GetGPIOMode(void)`. -/
def GetGPIOMode (s : State H) : Int :=
  s.gpio_mode

/-- `SetupOK`: nil when `setupOK` is set. -/
def SetupOK (s : State H) : Option Error :=
  if s.setupOK then none else some Error.setupNotCalled

/-- `Setup`: returns nil at once when already set up; otherwise resets the 54
recorded directions to -1, calls `C.setup()` and maps its status code. -/
def Setup (K : Consts) (C : Collab H) (s : State H) : Option Error × State H :=
  if s.setupOK then (none, s) else
  let s1 := (List.range 54).foldl (fun t i => SetGPIODirection i (-1) t) s
  let result := (C.setup s1.hw).1
  let s2 := { s1.log Call.setup with hw := (C.setup s1.hw).2 }
  if result = K.SETUP_OK then (none, { s2 with setupOK := true })
  else if result = K.SETUP_DEVMEM_FAIL then (some Error.noDevMem, s2)
  else if result = K.SETUP_MALLOC_FAIL then (some Error.mallocFailure, s2)
  else if result = K.SETUP_CPUINFO_FAIL then (some Error.cpuinfoFailure, s2)
  else if result = K.SETUP_NO_PERI_ADDR then (some Error.noPeriAddr, s2)
  else (some (Error.setupReturned result), s2)

/-- `GetGPIONumber`: the channel resolver; the value must be below 0xff. -/
def GetGPIONumber (C : Collab H) (channel : Nat) (s : State H) :
    (Nat × Option Error) × State H :=
  let result := (C.get_gpio_number s.gpio_mode channel).1
  let value := (C.get_gpio_number s.gpio_mode channel).2
  let s1 := s.log (Call.get_gpio_number channel)
  if result ≠ 0 then ((0, some (Error.getGPIONumberFailed result)), s1)
  else if value ≥ 0xff then ((0, some (Error.gpioOverflowsUint8 channel value)), s1)
  else ((value % 256, none), s1)

/-- `GPIOFunction`: the hardware function of a pin. -/
def GPIOFunction (C : Collab H) (gpio : Nat) (s : State H) : Int × State H :=
  (C.gpio_function s.hw gpio, s.log (Call.gpio_function gpio))

/-- `validatePullUpDown`: nil exactly for PUD_OFF, PUD_UP and PUD_DOWN. -/
def validatePullUpDown (K : Consts) (pullUpDown : Nat) : Option Error :=
  if (pullUpDown : Int) = K.PUD_OFF ∨ (pullUpDown : Int) = K.PUD_UP ∨
      (pullUpDown : Int) = K.PUD_DOWN then none
  else some (Error.invalidPullUpDown pullUpDown)

/-- The call `C.setup_gpio(gpio, direction, pud)`. -/
def call_setup_gpio (C : Collab H) (gpio : Nat) (direction pud : Int) (s : State H) :
    State H :=
  { s.log (Call.setup_gpio gpio direction pud) with
    hw := C.setup_gpio s.hw gpio direction pud }

/-- `CleanupChannel`. -/
def CleanupChannel (K : Consts) (C : Collab H) (channel : Nat) (s : State H) :
    Option Error × State H :=
  match SetupOK s with
  | some e => (some e, s)
  | none =>
    match GetGPIONumber C channel s with
    | ((_, some e), s1) => (some (Error.badChannelNumber channel e), s1)
    | ((gpio, none), s1) =>
      if GetGPIODirection gpio s1 = -1 then (none, s1)
      else
        let s2 := call_setup_gpio C gpio K.INPUT K.PUD_OFF s1
        (none, SetGPIODirection gpio (-1) s2)

/-- One iteration of the loop of `Cleanup`. -/
def cleanupStep (K : Consts) (C : Collab H) (s : State H) (i : Nat) : State H :=
  if GetGPIODirection i s = -1 then s
  else SetGPIODirection i (-1) (call_setup_gpio C i K.INPUT K.PUD_OFF s)

/-- `Cleanup`. -/
def Cleanup (K : Consts) (C : Collab H) (s : State H) : Option Error × State H :=
  if ¬ s.setupOK then (some Error.libraryNotSetUp, s) else
  let s1 := (List.range 54).foldl (cleanupStep K C) s
  let s2 := { s1.log Call.cleanup with hw := C.cleanup s1.hw }
  (none, { s2 with setupOK := false })

/-- `CheckGPIOPriv`. -/
def CheckGPIOPriv (C : Collab H) (s : State H) : Option Error × State H :=
  let result := C.check_gpio_priv s.hw
  let s1 := s.log Call.check_gpio_priv
  if result ≠ 0 then (some (Error.checkGPIOPrivFailed result), s1) else (none, s1)

/-- `SetupChannel`. -/
def SetupChannel (K : Consts) (C : Collab H) (channel pullUpDown : Nat) (output : Bool)
    (s : State H) : Option Error × State H :=
  match SetupOK s with
  | some e => (some e, s)
  | none =>
    match validatePullUpDown K pullUpDown with
    | some e => (some e, s)
    | none =>
      match GetGPIONumber C channel s with
      | ((_, some e), s1) => (some (Error.badChannel channel e), s1)
      | ((gpio, none), s1) =>
        let f := (GPIOFunction C gpio s1).1
        let s2 := (GPIOFunction C gpio s1).2
        if f ≠ 0 ∧ f ≠ 1 then (some (Error.channelInUse channel), s2)
        else
          let directionInt := GetGPIODirection gpio s2
          if f = 1 ∧ directionInt ≠ -1 then (some (Error.channelInUse channel), s2)
          else
            let directionInt := if output then K.OUTPUT else K.INPUT
            let pud : Int := if output then K.PUD_OFF else (pullUpDown : Int)
            (none, call_setup_gpio C gpio directionInt pud s2)

/-- `OutputGPIO`. -/
def OutputGPIO (K : Consts) (C : Collab H) (channel : Nat) (high : Bool) (s : State H) :
    Option Error × State H :=
  match SetupOK s with
  | some e => (some e, s)
  | none =>
    match GetGPIONumber C channel s with
    | ((_, some e), s1) => (some (Error.badChannel channel e), s1)
    | ((gpio, none), s1) =>
      if GetGPIODirection gpio s1 ≠ K.OUTPUT then (some (Error.notAnOutput channel), s1)
      else
        let value : Int := if high then 1 else 0
        (none, { s1.log (Call.output_gpio gpio value) with
                 hw := C.output_gpio s1.hw gpio value })

/-- `InputGPIO`. -/
def InputGPIO (K : Consts) (C : Collab H) (channel : Nat) (s : State H) :
    (Bool × Option Error) × State H :=
  match SetupOK s with
  | some e => ((false, some e), s)
  | none =>
    match GetGPIONumber C channel s with
    | ((_, some e), s1) => ((false, some (Error.badChannel channel e)), s1)
    | ((gpio, none), s1) =>
      let dir := GetGPIODirection gpio s1
      if dir ≠ K.INPUT ∧ dir ≠ K.OUTPUT then ((false, some (Error.channelNotSetUp channel)), s1)
      else ((decide (C.input_gpio s1.hw gpio ≠ 0), none), s1.log (Call.input_gpio gpio))

/-- `SetMode`. -/
def SetMode (K : Consts) (newMode : Int) (s : State H) : Option Error × State H :=
  match SetupOK s with
  | some e => (some e, s)
  | none =>
    let oldMode := GetGPIOMode s
    if oldMode ≠ K.MODE_UNKNOWN ∧ oldMode ≠ toCInt newMode then
      (some Error.differentMode, s)
    else if newMode ≠ K.BOARD ∧ newMode ≠ K.BCM then
      (some (Error.invalidNewMode newMode), s)
    else (none, SetGPIOMode (toCInt newMode) s)

/-- `GetMode`. -/
def GetMode (K : Consts) (s : State H) : (Int × Option Error) × State H :=
  match SetupOK s with
  | some e => ((K.MODE_UNKNOWN, some e), s)
  | none => ((GetGPIOMode s, none), s)

/-- `PWMExists`. -/
def PWMExists (C : Collab H) (channel : Nat) (s : State H) :
    (Bool × Option Error) × State H :=
  match SetupOK s with
  | some e => ((false, some e), s)
  | none =>
    match GetGPIONumber C channel s with
    | ((_, some e), s1) => ((false, some (Error.badChannel channel e)), s1)
    | ((gpio, none), s1) =>
      ((decide (C.pwm_exists s1.hw gpio ≠ 0), none), s1.log (Call.pwm_exists gpio))

/-- The struct `PWMObject`: the state of a software PWM output. -/
structure PWMObject where
  gpio : Nat
  frequency : F32
  dutyCycle : F32
  deriving DecidableEq, Repr

/-- `NewPWM`: returns the handle (nil on error) and the error. -/
def NewPWM (K : Consts) (C : Collab H) (channel : Nat) (frequency : F32) (s : State H) :
    (Option PWMObject × Option Error) × State H :=
  match GetGPIONumber C channel s with
  | ((_, some e), s1) => ((none, some e), s1)
  | ((gpio, none), s1) =>
    match PWMExists C channel s1 with
    | ((_, some e), s2) => ((none, some e), s2)
    | ((pwmExists, none), s2) =>
      if pwmExists then ((none, some (Error.pwmAlreadyExists channel)), s2)
      else if GetGPIODirection gpio s2 ≠ K.OUTPUT then
        ((none, some (Error.pwmNotAnOutput channel)), s2)
      else if F32.le frequency (F32.fin 0) then
        ((none, some (Error.pwmFrequencyNotPositive frequency)), s2)
      else
        ((some { gpio := gpio, frequency := frequency, dutyCycle := F32.fin 0 }, none), s2)

/-- `(*PWMObject).Start`: returns the error and the handle after the call. -/
def PWMObject.Start (C : Collab H) (p : PWMObject) (dutyCycle : F32) (s : State H) :
    (Option Error × PWMObject) × State H :=
  if F32.lt dutyCycle (F32.fin 0) ∨ F32.lt (F32.fin 100) dutyCycle then
    ((some (Error.dutyCycleOutOfRange dutyCycle), p), s)
  else
    let p1 := { p with dutyCycle := dutyCycle }
    let s1 := { s.log (Call.pwm_set_duty_cycle p1.gpio p1.dutyCycle) with
                hw := C.pwm_set_duty_cycle s.hw p1.gpio p1.dutyCycle }
    let s2 := { s1.log (Call.pwm_start p1.gpio) with hw := C.pwm_start s1.hw p1.gpio }
    ((none, p1), s2)

/-- `(*PWMObject).ChangeDutyCycle`. -/
def PWMObject.ChangeDutyCycle (C : Collab H) (p : PWMObject) (dutyCycle : F32)
    (s : State H) : (Option Error × PWMObject) × State H :=
  if F32.lt dutyCycle (F32.fin 0) ∨ F32.lt (F32.fin 100) dutyCycle then
    ((some (Error.dutyCycleOutOfRange dutyCycle), p), s)
  else
    let p1 := { p with dutyCycle := dutyCycle }
    ((none, p1), { s.log (Call.pwm_set_duty_cycle p1.gpio p1.dutyCycle) with
                   hw := C.pwm_set_duty_cycle s.hw p1.gpio p1.dutyCycle })

/-- `(*PWMObject).ChangeFrequency`. -/
def PWMObject.ChangeFrequency (C : Collab H) (p : PWMObject) (frequency : F32)
    (s : State H) : (Option Error × PWMObject) × State H :=
  if F32.le frequency (F32.fin 0) then
    ((some (Error.frequencyNotPositive frequency), p), s)
  else
    let p1 := { p with frequency := frequency }
    ((none, p1), { s.log (Call.pwm_set_frequency p1.gpio p1.frequency) with
                   hw := C.pwm_set_frequency s.hw p1.gpio p1.frequency })

/-- `(*PWMObject).Stop`. -/
def PWMObject.Stop (C : Collab H) (p : PWMObject) (s : State H) :
    (Option Error × PWMObject) × State H :=
  ((none, p), { s.log (Call.pwm_stop p.gpio) with hw := C.pwm_stop s.hw p.gpio })

/-- One call of a method of a PWM handle, with its argument. -/
inductive PWMCall where
  | start (dutyCycle : F32)
  | changeDutyCycle (dutyCycle : F32)
  | changeFrequency (frequency : F32)
  | stop

/-- The result of one method call on the handle `p`: the error, the handle
after the call and the state after the call. -/
def PWMObject.call (C : Collab H) (p : PWMObject) (m : PWMCall) (s : State H) :
    (Option Error × PWMObject) × State H :=
  match m with
  | PWMCall.start dutyCycle => p.Start C dutyCycle s
  | PWMCall.changeDutyCycle dutyCycle => p.ChangeDutyCycle C dutyCycle s
  | PWMCall.changeFrequency frequency => p.ChangeFrequency C frequency s
  | PWMCall.stop => p.Stop C s

/-- The handle and the state after a finite sequence of method calls on the
handle `p`, each call succeeding or failing. -/
def PWMObject.calls (C : Collab H) (p : PWMObject) (ms : List PWMCall) (s : State H) :
    PWMObject × State H :=
  ms.foldl (fun q m => ((q.1.call C m q.2).1.2, (q.1.call C m q.2).2)) (p, s)

/-- The registry part of two states is the same: session flag and direction
table. -/
def SameRegistry (s t : State H) : Prop :=
  t.setupOK = s.setupOK ∧ t.gpio_direction = s.gpio_direction

/-- The registry invariant of the code: when the session flag is set, every
pin 0..53 has recorded direction -1. -/
def RegistryUnset (s : State H) : Prop :=
  s.setupOK = true → ∀ i, i < 54 → s.gpio_direction i = -1

/-- One call of a public operation of the package, with its arguments. -/
inductive Op where
  | setupOK
  | setup
  | cleanupChannel (channel : Nat)
  | cleanup
  | checkGPIOPriv
  | getGPIONumber (channel : Nat)
  | gpioFunction (gpio : Nat)
  | setupChannel (channel pullUpDown : Nat) (output : Bool)
  | outputGpio (channel : Nat) (high : Bool)
  | inputGpio (channel : Nat)
  | setMode (newMode : Int)
  | getMode
  | pwmExists (channel : Nat)
  | newPWM (channel : Nat) (frequency : F32)
  | pwmStart (p : PWMObject) (dutyCycle : F32)
  | pwmChangeDutyCycle (p : PWMObject) (dutyCycle : F32)
  | pwmChangeFrequency (p : PWMObject) (frequency : F32)
  | pwmStop (p : PWMObject)

/-- The state after one call of a public operation (its results dropped). -/
def Op.run (K : Consts) (C : Collab H) (op : Op) (s : State H) : State H :=
  match op with
  | Op.setupOK => s
  | Op.setup => (Setup K C s).2
  | Op.cleanupChannel channel => (CleanupChannel K C channel s).2
  | Op.cleanup => (Cleanup K C s).2
  | Op.checkGPIOPriv => (CheckGPIOPriv C s).2
  | Op.getGPIONumber channel => (GetGPIONumber C channel s).2
  | Op.gpioFunction gpio => (GPIOFunction C gpio s).2
  | Op.setupChannel channel pullUpDown output =>
    (SetupChannel K C channel pullUpDown output s).2
  | Op.outputGpio channel high => ( OutputGPIO K C channel high s).2
  | Op.inputGpio channel => ( InputGPIO K C channel s).2
  | Op.setMode newMode => (SetMode K newMode s).2
  | Op.getMode => (GetMode K s).2
  | Op.pwmExists channel => (PWMExists C channel s).2
  | Op.newPWM channel frequency => (NewPWM K C channel frequency s).2
  | Op.pwmStart p dutyCycle => (p.Start C dutyCycle s).2
  | Op.pwmChangeDutyCycle p dutyCycle => (p.ChangeDutyCycle C dutyCycle s).2
  | Op.pwmChangeFrequency p frequency => (p.ChangeFrequency C frequency s).2
  | Op.pwmStop p => (p.Stop C s).2

/-- The state after a finite sequence of calls of public operations. -/
def runOps (K : Consts) (C : Collab H) (ops : List Op) (s : State H) : State H :=
  ops.foldl (fun t op => op.run K C t) s

/-! ## A simulated board, for the concrete runs -/

/-- The hardware state of the simulated board: the function-select value of
each pin (0 input, 1 output, anything else an alternate function), the level of
each pin and the pins that have a soft PWM. -/
structure SimHW where
  fsel : Nat → Int
  level : Nat → Int
  pwm : Nat → Bool

/-- The simulated C library: `setup` succeeds, BCM channels 0..53 resolve to
themselves (other modes resolve nothing), `setup_gpio` sets the function select
of the pin to 1 for OUTPUT (0) and to 0 otherwise, `input_gpio` reads the
level last written by `output_gpio`, and `pwm_exists` is non-zero exactly for
the pins on which `pwm_set_duty_cycle`, `pwm_set_frequency` or `pwm_start` was
called and not undone by `pwm_stop`. -/
def simCollab : Collab SimHW where
  setup h := (0, h)
  cleanup h := h
  check_gpio_priv _ := 0
  get_gpio_number mode channel :=
    if mode = 11 then (if channel ≤ 53 then (0, channel) else (4, 0)) else (3, 0)
  gpio_function h g := h.fsel g
  setup_gpio h g d _ :=
    { h with fsel := fun i => if i = g then (if d = 0 then 1 else 0) else h.fsel i }
  output_gpio h g v := { h with level := fun i => if i = g then v else h.level i }
  input_gpio h g := h.level g
  pwm_exists h g := if h.pwm g then 1 else 0
  pwm_set_duty_cycle h g _ := { h with pwm := fun i => if i = g then true else h.pwm i }
  pwm_set_frequency h g _ := { h with pwm := fun i => if i = g then true else h.pwm i }
  pwm_start h g := { h with pwm := fun i => if i = g then true else h.pwm i }
  pwm_stop h g := { h with pwm := fun i => if i = g then false else h.pwm i }

/-- The state of a freshly started process on the simulated board: the C
globals are zero-initialised except `gpio_mode`, which starts as MODE_UNKNOWN;
all pins are inputs at level 0. -/
def simInit : State SimHW where
  setupOK := false
  gpio_direction := fun _ => 0
  gpio_mode := -1
  hw := { fsel := fun _ => 0, level := fun _ => 0, pwm := fun _ => false }
  trace := []

/-- The simulated board after `Setup()` and `SetMode(BCM)`. -/
def simReady : State SimHW :=
  (SetMode rpiConsts 11 (Setup rpiConsts simCollab simInit).2).2

/-- A set-up session in BCM mode in which pin 18 is an input at the hardware
(function select 0) and its recorded direction is INPUT. -/
def simInput18 : State SimHW :=
  SetGPIODirection 18 rpiConsts.INPUT (SetupChannel rpiConsts simCollab 18 0 false simReady).2

/-- A set-up session in BCM mode in which pin 18 is an output at the hardware
(function select 1) and its recorded direction is OUTPUT. -/
def simOutput18 : State SimHW :=
  SetGPIODirection 18 rpiConsts.OUTPUT (SetupChannel rpiConsts simCollab 18 0 true simReady).2

/-- The simulated C library with a resolver that maps every channel to the pin
of the same number, whatever the mode. -/
def wideCollab : Collab SimHW :=
  { simCollab with get_gpio_number := fun _ channel => (0, channel) }

/-- The simulated board after `Setup()`, `SetMode(BCM)`, `Cleanup()` and a
second `Setup()`. -/
def simAgain : State SimHW :=
  (Setup rpiConsts simCollab (Cleanup rpiConsts simCollab simReady).2).2

/-- The state of a freshly started process on a simulated board whose pin 18
is claimed by an alternate function (function select 4). -/
def simAlt : State SimHW :=
  { simInit with
    hw := { fsel := fun i => if i = 18 then 4 else 0, level := fun _ => 0,
            pwm := fun _ => false } }

/-- The simulated board after `Setup()`, `SetMode(BCM)` and
`SetupChannel(18, PUD_OFF, true)`. -/
def simConfigured : State SimHW :=
  runOps rpiConsts simCollab [Op.setup, Op.setMode 11, Op.setupChannel 18 0 true] simInit

/-- The zero value of `PWMObject`. -/
def pwmZero : PWMObject :=
  { gpio := 0, frequency := F32.fin 0, dutyCycle := F32.fin 0 }

/-- A handle as `NewPWM(18, 50)` returns it. -/
def pwm18 : PWMObject :=
  { gpio := 18, frequency := F32.fin 50, dutyCycle := F32.fin 0 }

/-! ## Basic facts about the resolver -/

theorem GetGPIONumber_state (C : Collab H) (channel : Nat) (s : State H) :
    (GetGPIONumber C channel s).2 = s.log (Call.get_gpio_number channel) := by
  simp only [GetGPIONumber]
  split_ifs <;> rfl

theorem GetGPIONumber_resolved (C : Collab H) (channel g : Nat) (s : State H)
    (h : (GetGPIONumber C channel s).1 = (g, none)) :
    GetGPIONumber C channel s = ((g, none), s.log (Call.get_gpio_number channel)) := by
  rw [← GetGPIONumber_state C channel s, ← h]

theorem SetupOK_of_set (s : State H) (h : s.setupOK = true) : SetupOK s = none := by
  simp [SetupOK, h]

theorem SetupOK_of_unset (s : State H) (h : s.setupOK = false) :
    SetupOK s = some Error.setupNotCalled := by
  simp [SetupOK, h]

/-! ## Digital write and read -/

/-- C4: in a set-up session, for a channel resolving to pin `g`, `OutputGPIO`
returns nil exactly when the recorded direction of `g` is OUTPUT.  On an error
the only call made is the channel resolution (no `output_gpio`) and the session
flag, direction table, numbering mode and hardware are unchanged; on nil the
calls made are the resolution followed by the single write
`output_gpio(g, 1 if high else 0)`, and the session flag, direction table and
numbering mode are unchanged. -/
theorem OutputGPIO_nil_iff_output (K : Consts) (C : Collab H) (s : State H) (c g : Nat)
    (high : Bool) (hset : s.setupOK = true)
    (hres : (GetGPIONumber C c s).1 = (g, none)) :
    (( OutputGPIO K C c high s).1 = none ↔ GetGPIODirection g s = K.OUTPUT) ∧
    (( OutputGPIO K C c high s).1 ≠ none →
      ( OutputGPIO K C c high s).2.trace = s.trace ++ [Call.get_gpio_number c] ∧
      ( OutputGPIO K C c high s).2.hw = s.hw ∧
      ( OutputGPIO K C c high s).2.setupOK = s.setupOK ∧
      ( OutputGPIO K C c high s).2.gpio_direction = s.gpio_direction ∧
      ( OutputGPIO K C c high s).2.gpio_mode = s.gpio_mode) ∧
    (( OutputGPIO K C c high s).1 = none →
      ( OutputGPIO K C c high s).2.trace =
        s.trace ++ [Call.get_gpio_number c, Call.output_gpio g (if high then 1 else 0)] ∧
      ( OutputGPIO K C c high s).2.hw = C.output_gpio s.hw g (if high then 1 else 0) ∧
      ( OutputGPIO K C c high s).2.setupOK = s.setupOK ∧
      ( OutputGPIO K C c high s).2.gpio_direction = s.gpio_direction ∧
      ( OutputGPIO K C c high s).2.gpio_mode = s.gpio_mode) := by
  have hG := GetGPIONumber_resolved C c g s hres
  by_cases hd : s.gpio_direction g = K.OUTPUT
  · simp [ OutputGPIO, SetupOK_of_set s hset, hG, GetGPIODirection, State.log, hd]
  · simp [ OutputGPIO, SetupOK_of_set s hset, hG, GetGPIODirection, State.log, hd]

/-- C5: in a set-up session, for a channel resolving to pin `g`, `InputGPIO`
returns an error (the "isn't set up" error) exactly when the recorded direction
of `g` is neither INPUT nor OUTPUT; otherwise it returns `(b, nil)` with `b`
true exactly when `input_gpio(g)` is non-zero.  In both cases the session flag,
direction table, numbering mode and hardware are unchanged. -/
theorem InputGPIO_error_iff_unconfigured (K : Consts) (C : Collab H) (s : State H)
    (c g : Nat) (hset : s.setupOK = true)
    (hres : (GetGPIONumber C c s).1 = (g, none)) :
    (( InputGPIO K C c s).1.2 ≠ none ↔
      (GetGPIODirection g s ≠ K.INPUT ∧ GetGPIODirection g s ≠ K.OUTPUT)) ∧
    (( InputGPIO K C c s).1.2 ≠ none →
      ( InputGPIO K C c s).1 = (false, some (Error.channelNotSetUp c))) ∧
    (( InputGPIO K C c s).1.2 = none →
      (( InputGPIO K C c s).1.1 = true ↔ C.input_gpio s.hw g ≠ 0)) ∧
    ( InputGPIO K C c s).2.setupOK = s.setupOK ∧
    ( InputGPIO K C c s).2.gpio_direction = s.gpio_direction ∧
    ( InputGPIO K C c s).2.gpio_mode = s.gpio_mode ∧
    ( InputGPIO K C c s).2.hw = s.hw := by
  have hG := GetGPIONumber_resolved C c g s hres
  by_cases hd : s.gpio_direction g ≠ K.INPUT ∧ s.gpio_direction g ≠ K.OUTPUT
  · simp [ InputGPIO, SetupOK_of_set s hset, hG, GetGPIODirection, State.log, hd]
  · simp only [ InputGPIO, SetupOK_of_set s hset, hG, GetGPIODirection, State.log, hd]
    simp

/-! ## Channel cleanup -/

theorem GetGPIONumber_of_mode (C : Collab H) (channel : Nat) (s t : State H)
    (h : t.gpio_mode = s.gpio_mode) :
    (GetGPIONumber C channel t).1 = (GetGPIONumber C channel s).1 := by
  simp only [GetGPIONumber, h]
  split_ifs <;> rfl

theorem CleanupChannel_of_unset (K : Consts) (C : Collab H) (s : State H) (c g : Nat)
    (hset : s.setupOK = true) (hres : (GetGPIONumber C c s).1 = (g, none))
    (hd : s.gpio_direction g = -1) :
    CleanupChannel K C c s = (none, s.log (Call.get_gpio_number c)) := by
  have hG := GetGPIONumber_resolved C c g s hres
  have hd2 : GetGPIODirection g (s.log (Call.get_gpio_number c)) = -1 := hd
  simp only [CleanupChannel, SetupOK_of_set s hset, hG, hd2, if_true]

theorem CleanupChannel_of_set (K : Consts) (C : Collab H) (s : State H) (c g : Nat)
    (hset : s.setupOK = true) (hres : (GetGPIONumber C c s).1 = (g, none))
    (hd : s.gpio_direction g ≠ -1) :
    CleanupChannel K C c s = (none, SetGPIODirection g (-1)
      (call_setup_gpio C g K.INPUT K.PUD_OFF (s.log (Call.get_gpio_number c)))) := by
  have hG := GetGPIONumber_resolved C c g s hres
  have hd2 : GetGPIODirection g (s.log (Call.get_gpio_number c)) ≠ -1 := hd
  simp only [CleanupChannel, SetupOK_of_set s hset, hG, hd2, if_false]

/-- C6: in a set-up session, for a channel resolving to pin `g` with any
recorded direction, `CleanupChannel` returns nil, leaves the recorded direction
of `g` at -1 and every other recorded direction unchanged; a second
`CleanupChannel` right after it returns nil, makes only the channel resolution
(no `setup_gpio`) and leaves session flag, direction table, numbering mode and
hardware unchanged.  When the direction of `g` was not -1, the first call makes
exactly the hardware call `setup_gpio(g, INPUT, PUD_OFF)` after the resolution. -/
theorem CleanupChannel_idempotent (K : Consts) (C : Collab H) (s : State H) (c g : Nat)
    (hset : s.setupOK = true) (hres : (GetGPIONumber C c s).1 = (g, none)) :
    (CleanupChannel K C c s).1 = none ∧
    GetGPIODirection g (CleanupChannel K C c s).2 = -1 ∧
    (∀ i, i ≠ g →
      GetGPIODirection i (CleanupChannel K C c s).2 = GetGPIODirection i s) ∧
    (CleanupChannel K C c (CleanupChannel K C c s).2).1 = none ∧
    (CleanupChannel K C c (CleanupChannel K C c s).2).2.trace =
      (CleanupChannel K C c s).2.trace ++ [Call.get_gpio_number c] ∧
    (CleanupChannel K C c (CleanupChannel K C c s).2).2.hw = (CleanupChannel K C c s).2.hw ∧
    (CleanupChannel K C c (CleanupChannel K C c s).2).2.setupOK =
      (CleanupChannel K C c s).2.setupOK ∧
    (CleanupChannel K C c (CleanupChannel K C c s).2).2.gpio_direction =
      (CleanupChannel K C c s).2.gpio_direction ∧
    (CleanupChannel K C c (CleanupChannel K C c s).2).2.gpio_mode =
      (CleanupChannel K C c s).2.gpio_mode ∧
    (GetGPIODirection g s ≠ -1 →
      (CleanupChannel K C c s).2.trace =
        s.trace ++ [Call.get_gpio_number c, Call.setup_gpio g K.INPUT K.PUD_OFF] ∧
      (CleanupChannel K C c s).2.hw = C.setup_gpio s.hw g K.INPUT K.PUD_OFF) := by
  by_cases hd : s.gpio_direction g = -1
  · have e1 := CleanupChannel_of_unset K C s c g hset hres hd
    have hres2 : (GetGPIONumber C c (s.log (Call.get_gpio_number c))).1 = (g, none) :=
      (GetGPIONumber_of_mode C c s (s.log (Call.get_gpio_number c)) rfl).trans hres
    have e2 := CleanupChannel_of_unset K C (s.log (Call.get_gpio_number c)) c g hset hres2 hd
    rw [e1]
    simp only [e2]
    simp [GetGPIODirection, State.log, hd]
  · have e1 := CleanupChannel_of_set K C s c g hset hres hd
    have hres2 : (GetGPIONumber C c (SetGPIODirection g (-1)
        (call_setup_gpio C g K.INPUT K.PUD_OFF (s.log (Call.get_gpio_number c))))).1 =
        (g, none) :=
      (GetGPIONumber_of_mode C c s (SetGPIODirection g (-1)
        (call_setup_gpio C g K.INPUT K.PUD_OFF (s.log (Call.get_gpio_number c)))) rfl).trans hres
    have e2 := CleanupChannel_of_unset K C _ c g (by exact hset) hres2
      (by simp [SetGPIODirection])
    rw [e1]
    simp only [e2]
    simp [GetGPIODirection, State.log, SetGPIODirection, call_setup_gpio]
    intro i hi
    simp [hi]

/-! ## Numbering mode -/

theorem SetMode_setupOK (K : Consts) (m : Int) (s : State H) :
    (SetMode K m s).2.setupOK = s.setupOK := by
  unfold SetMode
  cases hs : SetupOK s with
  | some e => rfl
  | none =>
    simp only [SetGPIOMode]
    split_ifs <;> rfl

theorem SetMode_keeps_committed (K : Consts) (m : Int) (s : State H)
    (hBU : K.BOARD ≠ K.MODE_UNKNOWN) (hCU : K.BCM ≠ K.MODE_UNKNOWN)
    (hm : s.gpio_mode = K.BOARD ∨ s.gpio_mode = K.BCM) :
    (SetMode K m s).2.gpio_mode = s.gpio_mode := by
  unfold SetMode
  cases hs : SetupOK s with
  | some e => rfl
  | none =>
    simp only [SetGPIOMode, GetGPIOMode]
    split_ifs with h1 h2
    · rfl
    · rfl
    · have hne : s.gpio_mode ≠ K.MODE_UNKNOWN := by
        rcases hm with h | h <;> rw [h] <;> assumption
      have heq : s.gpio_mode = toCInt m := by
        by_contra hc
        exact h1 ⟨hne, hc⟩
      exact heq.symm

theorem SetMode_fold_keeps_committed (K : Consts) (ms : List Int)
    (hBU : K.BOARD ≠ K.MODE_UNKNOWN) (hCU : K.BCM ≠ K.MODE_UNKNOWN) :
    ∀ s : State H, (s.gpio_mode = K.BOARD ∨ s.gpio_mode = K.BCM) →
      (ms.foldl (fun t m => (SetMode K m t).2) s).gpio_mode = s.gpio_mode := by
  induction ms with
  | nil => intro s _; rfl
  | cons m ms ih =>
    intro s hm
    have hstep := SetMode_keeps_committed K m s hBU hCU hm
    simp only [List.foldl_cons]
    rw [ih (SetMode K m s).2 (by rw [hstep]; exact hm), hstep]

/-- C7: in a set-up session `SetMode(m)` returns nil exactly when `m` is BOARD
or BCM and the current mode is MODE_UNKNOWN or `m`; on success `GetMode` then
returns `(m, nil)`, on failure the state is unchanged.  Hence, after a
successful `SetMode(BCM)`, `SetMode(BOARD)` fails with the different-mode error
and `SetMode(BCM)` succeeds again, and a mode that is BOARD or BCM is left as it
is by every later sequence of `SetMode` calls.  (BOARD and BCM are C `int`
constants, distinct from each other and from MODE_UNKNOWN.) -/
theorem SetMode_nil_iff (K : Consts) (s : State H) (m : Int) (ms : List Int)
    (hset : s.setupOK = true)
    (hB : toCInt K.BOARD = K.BOARD) (hC : toCInt K.BCM = K.BCM)
    (hBC : K.BOARD ≠ K.BCM) (hBU : K.BOARD ≠ K.MODE_UNKNOWN)
    (hCU : K.BCM ≠ K.MODE_UNKNOWN) :
    ((SetMode K m s).1 = none ↔
      (m = K.BOARD ∨ m = K.BCM) ∧ (GetGPIOMode s = K.MODE_UNKNOWN ∨ GetGPIOMode s = m)) ∧
    ((SetMode K m s).1 = none → (GetMode K (SetMode K m s).2).1 = (m, none)) ∧
    ((SetMode K m s).1 ≠ none → (SetMode K m s).2 = s) ∧
    ((SetMode K K.BCM s).1 = none →
      (SetMode K K.BOARD (SetMode K K.BCM s).2).1 = some Error.differentMode ∧
      (SetMode K K.BCM (SetMode K K.BCM s).2).1 = none) ∧
    ((GetGPIOMode s = K.BOARD ∨ GetGPIOMode s = K.BCM) →
      GetGPIOMode (ms.foldl (fun t x => (SetMode K x t).2) s) = GetGPIOMode s) := by
  have hcm : ∀ x : Int, (x = K.BOARD ∨ x = K.BCM) → toCInt x = x := by
    intro x hx
    rcases hx with h | h <;> rw [h] <;> assumption
  have key : (SetMode K m s).1 = none ↔
      (m = K.BOARD ∨ m = K.BCM) ∧ (s.gpio_mode = K.MODE_UNKNOWN ∨ s.gpio_mode = m) := by
    simp only [SetMode, SetupOK_of_set s hset, GetGPIOMode]
    constructor
    · intro h
      split_ifs at h with h1 h2
      have hv : m = K.BOARD ∨ m = K.BCM := by
        by_contra hc
        push_neg at hc
        exact h2 hc
      refine ⟨hv, ?_⟩
      by_contra hc
      push_neg at hc
      apply h1
      refine ⟨hc.1, ?_⟩
      rw [hcm m hv]
      exact hc.2
    · rintro ⟨hv, hold⟩
      have h1 : ¬ (s.gpio_mode ≠ K.MODE_UNKNOWN ∧ s.gpio_mode ≠ toCInt m) := by
        rw [hcm m hv]
        rintro ⟨ha, hb⟩
        rcases hold with h | h
        · exact ha h
        · exact hb h
      have h2 : ¬ (m ≠ K.BOARD ∧ m ≠ K.BCM) := by
        rintro ⟨ha, hb⟩
        rcases hv with h | h
        · exact ha h
        · exact hb h
      simp only [h1, h2, if_false]
  have hsucc : ∀ (x : Int) (t : State H), t.setupOK = true → (SetMode K x t).1 = none →
      (SetMode K x t).2 = SetGPIOMode (toCInt x) t := by
    intro x t ht h
    simp only [SetMode, SetupOK_of_set t ht, GetGPIOMode] at h ⊢
    split_ifs at h ⊢ with h1 h2
    rfl
  refine ⟨key, ?_, ?_, ?_, ?_⟩
  · intro h
    have hv := (key.1 h).1
    rw [hsucc m s hset h]
    have : SetupOK (SetGPIOMode (toCInt m) s) = none := SetupOK_of_set _ hset
    simp only [GetMode, this]
    simp only [GetGPIOMode, SetGPIOMode, hcm m hv]
  · intro h
    simp only [SetMode, SetupOK_of_set s hset, GetGPIOMode] at h ⊢
    split_ifs at h ⊢ with h1 h2
    · rfl
    · rfl
    · exact absurd rfl h
  · intro h
    have e := hsucc K.BCM s hset h
    have ht : (SetGPIOMode (toCInt K.BCM) s).setupOK = true := hset
    rw [e]
    constructor
    · have h1 : (SetGPIOMode (toCInt K.BCM) s).gpio_mode ≠ K.MODE_UNKNOWN ∧
          (SetGPIOMode (toCInt K.BCM) s).gpio_mode ≠ toCInt K.BOARD := by
        simp only [SetGPIOMode, hC, hB]
        exact ⟨hCU, fun h => hBC h.symm⟩
      simp only [SetMode, SetupOK_of_set _ ht, GetGPIOMode]
      rw [if_pos h1]
    · have h1 : ¬ ((SetGPIOMode (toCInt K.BCM) s).gpio_mode ≠ K.MODE_UNKNOWN ∧
          (SetGPIOMode (toCInt K.BCM) s).gpio_mode ≠ toCInt K.BCM) := by
        simp [SetGPIOMode]
      have h2 : ¬ (K.BCM ≠ K.BOARD ∧ K.BCM ≠ K.BCM) := by simp
      simp only [SetMode, SetupOK_of_set _ ht, GetGPIOMode]
      rw [if_neg h1, if_neg h2]
  · intro hm
    exact SetMode_fold_keeps_committed K ms hBU hCU s hm

/-! ## The session gate -/

/-- C8: when the session flag is false, each of `SetupChannel`,
`CleanupChannel`, `OutputGPIO`, `InputGPIO`, `SetMode`, `GetMode` and
`PWMExists` returns the error of `SetupOK` and the state it was called in: the
trace of calls into the C library, the hardware, the session flag, the
direction table and the numbering mode are all as before.  `GetMode` returns
MODE_UNKNOWN as its value, `InputGPIO` and `PWMExists` return false. -/
theorem session_gate (K : Consts) (C : Collab H) (s : State H) (channel pullUpDown : Nat)
    (output high : Bool) (newMode : Int) (hunset : s.setupOK = false) :
    SetupChannel K C channel pullUpDown output s = (some Error.setupNotCalled, s) ∧
    CleanupChannel K C channel s = (some Error.setupNotCalled, s) ∧
    OutputGPIO K C channel high s = (some Error.setupNotCalled, s) ∧
    InputGPIO K C channel s = ((false, some Error.setupNotCalled), s) ∧
    SetMode K newMode s = (some Error.setupNotCalled, s) ∧
    GetMode K s = ((K.MODE_UNKNOWN, some Error.setupNotCalled), s) ∧
    PWMExists C channel s = ((false, some Error.setupNotCalled), s) ∧
    SetupOK s = some Error.setupNotCalled := by
  have h := SetupOK_of_unset s hunset
  refine ⟨?_, ?_, ?_, ?_, ?_, ?_, ?_, h⟩
  · simp only [SetupChannel, h]
  · simp only [CleanupChannel, h]
  · simp only [ OutputGPIO, h]
  · simp only [ InputGPIO, h]
  · simp only [SetMode, h]
  · simp only [GetMode, h]
  · simp only [PWMExists, h]

/-! ## Setup -/

theorem Setup_flag_of_nil (K : Consts) (C : Collab H) (s : State H)
    (h : (Setup K C s).1 = none) : (Setup K C s).2.setupOK = true := by
  unfold Setup at h ⊢
  by_cases hs : s.setupOK = true
  · simp only [hs, if_true]
  · simp only [hs] at h ⊢
    simp only [Bool.false_eq_true, if_false] at h ⊢
    split_ifs at h ⊢
    rfl

/-- C10: when the session flag is already true, `Setup` returns nil and the
state it was called in (no call into the C library, no recorded direction
reset, nothing changed); hence, when a first `Setup` from any state `s0`
returns nil, running `Setup` again gives nil and the same state. -/
theorem Setup_idempotent (K : Consts) (C : Collab H) (s s0 : State H)
    (hset : s.setupOK = true) (hfirst : (Setup K C s0).1 = none) :
    Setup K C s = (none, s) ∧
    Setup K C (Setup K C s0).2 = (none, (Setup K C s0).2) ∧
    Setup K C (Setup K C s0).2 = Setup K C s0 := by
  have h1 : ∀ t : State H, t.setupOK = true → Setup K C t = (none, t) := by
    intro t ht
    simp only [Setup, ht, if_true]
  have h2 := h1 _ (Setup_flag_of_nil K C s0 hfirst)
  refine ⟨h1 s hset, h2, ?_⟩
  rw [h2]
  exact Prod.ext hfirst.symm rfl

/-! ## Channel setup -/

theorem SetupChannel_resolved (K : Consts) (C : Collab H) (s : State H) (c p g : Nat)
    (o : Bool) (hset : s.setupOK = true) (hp : validatePullUpDown K p = none)
    (hres : (GetGPIONumber C c s).1 = (g, none)) :
    SetupChannel K C c p o s =
      if C.gpio_function s.hw g ≠ 0 ∧ C.gpio_function s.hw g ≠ 1 then
        (some (Error.channelInUse c),
          (s.log (Call.get_gpio_number c)).log (Call.gpio_function g))
      else if C.gpio_function s.hw g = 1 ∧ s.gpio_direction g ≠ -1 then
        (some (Error.channelInUse c),
          (s.log (Call.get_gpio_number c)).log (Call.gpio_function g))
      else
        (none, call_setup_gpio C g (if o then K.OUTPUT else K.INPUT)
          (if o then K.PUD_OFF else (p : Int))
          ((s.log (Call.get_gpio_number c)).log (Call.gpio_function g))) := by
  have hG := GetGPIONumber_resolved C c g s hres
  simp only [SetupChannel, SetupOK_of_set s hset, hp, hG, GPIOFunction, GetGPIODirection]
  rfl

theorem SetupChannel_error_frame (K : Consts) (C : Collab H) (s : State H) (c p : Nat)
    (o : Bool) (herr : (SetupChannel K C c p o s).1 ≠ none) :
    (∃ cs, (SetupChannel K C c p o s).2.trace = s.trace ++ cs ∧
      ∀ g d q, Call.setup_gpio g d q ∉ cs) ∧
    (SetupChannel K C c p o s).2.hw = s.hw ∧
    (SetupChannel K C c p o s).2.setupOK = s.setupOK ∧
    (SetupChannel K C c p o s).2.gpio_direction = s.gpio_direction ∧
    (SetupChannel K C c p o s).2.gpio_mode = s.gpio_mode := by
  unfold SetupChannel at herr ⊢
  cases h1 : SetupOK s with
  | some e => exact ⟨⟨[], by simp, by simp⟩, rfl, rfl, rfl, rfl⟩
  | none =>
    cases h2 : validatePullUpDown K p with
    | some e => exact ⟨⟨[], by simp, by simp⟩, rfl, rfl, rfl, rfl⟩
    | none =>
      have hst := GetGPIONumber_state C c s
      rcases h3 : GetGPIONumber C c s with ⟨⟨n, e⟩, s1⟩
      rw [h3] at hst
      simp only at hst
      subst hst
      simp only [h1, h2, h3] at herr ⊢
      cases e with
      | some e =>
        exact ⟨⟨[Call.get_gpio_number c], rfl, by simp⟩, rfl, rfl, rfl, rfl⟩
      | none =>
        simp only [GPIOFunction, GetGPIODirection] at herr ⊢
        split_ifs at herr ⊢
        · exact ⟨⟨[Call.get_gpio_number c, Call.gpio_function n],
            by simp [State.log], by simp⟩, rfl, rfl, rfl, rfl⟩
        · exact ⟨⟨[Call.get_gpio_number c, Call.gpio_function n],
            by simp [State.log], by simp⟩, rfl, rfl, rfl, rfl⟩
        · exact absurd rfl herr
        · exact absurd rfl herr

/-- The in-use test of `SetupChannel` in any state: in a set-up session, for a
valid pull mode and a channel
resolving to pin `g`, `SetupChannel` returns the "already in use" error exactly
when `gpio_function(g)` is neither 0 nor 1, or `gpio_function(g)` is 1 and the
recorded direction of `g` is not -1.  Whenever `SetupChannel` returns an error
(any error, in any state), the calls it made contain no `setup_gpio`, and the
hardware, session flag, direction table and numbering mode are unchanged. -/
theorem SetupChannel_inUse_iff (K : Consts) (C : Collab H) (s : State H) (c p g : Nat)
    (o : Bool) (hset : s.setupOK = true) (hp : validatePullUpDown K p = none)
    (hres : (GetGPIONumber C c s).1 = (g, none)) :
    ((SetupChannel K C c p o s).1 = some (Error.channelInUse c) ↔
      (C.gpio_function s.hw g ≠ 0 ∧ C.gpio_function s.hw g ≠ 1) ∨
      (C.gpio_function s.hw g = 1 ∧ GetGPIODirection g s ≠ -1)) ∧
    (∀ (t : State H) (c1 p1 : Nat) (o1 : Bool), (SetupChannel K C c1 p1 o1 t).1 ≠ none →
      (∃ cs, (SetupChannel K C c1 p1 o1 t).2.trace = t.trace ++ cs ∧
        ∀ g1 d q, Call.setup_gpio g1 d q ∉ cs) ∧
      (SetupChannel K C c1 p1 o1 t).2.hw = t.hw ∧
      (SetupChannel K C c1 p1 o1 t).2.setupOK = t.setupOK ∧
      (SetupChannel K C c1 p1 o1 t).2.gpio_direction = t.gpio_direction ∧
      (SetupChannel K C c1 p1 o1 t).2.gpio_mode = t.gpio_mode) := by
  refine ⟨?_, fun t c1 p1 o1 h => SetupChannel_error_frame K C t c1 p1 o1 h⟩
  rw [SetupChannel_resolved K C s c p g o hset hp hres]
  simp only [GetGPIODirection]
  split_ifs with h1 h2
  · exact ⟨fun _ => Or.inl h1, fun _ => rfl⟩
  · exact ⟨fun _ => Or.inr h2, fun _ => rfl⟩
  · constructor
    · intro h; simp at h
    · rintro (h | h)
      · exact absurd h h1
      · exact absurd h h2

/-- C2 (as amended): with a C library in which `gpio_function(g)` is 0 after
`setup_gpio(g, INPUT, _)`: in a set-up session, for a channel resolving to pin
`g`, when `SetupChannel(c, p1, false)` returns nil, a `SetupChannel(c, p2, o2)`
right after it (valid `p2`, any `o2`) returns nil as well, and it would do so
whatever direction were recorded for `g`: the recorded direction is consulted
only when `gpio_function(g)` is 1. -/
theorem SetupChannel_again_after_input (K : Consts) (C : Collab H) (s : State H)
    (c p1 p2 g : Nat) (o2 : Bool) (d : Int)
    (hIn : ∀ h x q, C.gpio_function (C.setup_gpio h x K.INPUT q) x = 0)
    (hset : s.setupOK = true) (hp2 : validatePullUpDown K p2 = none)
    (hres : (GetGPIONumber C c s).1 = (g, none))
    (hfirst : (SetupChannel K C c p1 false s).1 = none) :
    (SetupChannel K C c p2 o2 (SetupChannel K C c p1 false s).2).1 = none ∧
    (SetupChannel K C c p2 o2
      (SetGPIODirection g d (SetupChannel K C c p1 false s).2)).1 = none := by
  have hp1 : validatePullUpDown K p1 = none := by
    cases hv : validatePullUpDown K p1 with
    | none => rfl
    | some e =>
      simp only [SetupChannel, SetupOK_of_set s hset, hv] at hfirst
      simp at hfirst
  have e1 := SetupChannel_resolved K C s c p1 g false hset hp1 hres
  rw [e1] at hfirst
  have e1b : SetupChannel K C c p1 false s =
      (none, call_setup_gpio C g K.INPUT (p1 : Int)
        ((s.log (Call.get_gpio_number c)).log (Call.gpio_function g))) := by
    rw [e1]
    by_cases h1 : C.gpio_function s.hw g ≠ 0 ∧ C.gpio_function s.hw g ≠ 1
    · rw [if_pos h1] at hfirst
      simp at hfirst
    · by_cases h2 : C.gpio_function s.hw g = 1 ∧ s.gpio_direction g ≠ -1
      · rw [if_neg h1, if_pos h2] at hfirst
        simp at hfirst
      · rw [if_neg h1, if_neg h2]
        simp
  have hgen : ∀ t : State H, t.setupOK = true → t.gpio_mode = s.gpio_mode →
      C.gpio_function t.hw g = 0 → (SetupChannel K C c p2 o2 t).1 = none := by
    intro t ht hm hf
    have hrt : (GetGPIONumber C c t).1 = (g, none) :=
      (GetGPIONumber_of_mode C c s t hm).trans hres
    rw [SetupChannel_resolved K C t c p2 g o2 ht hp2 hrt, hf]
    simp
  rw [e1b]
  constructor
  · exact hgen _ hset rfl (hIn _ _ _)
  · exact hgen _ hset rfl (hIn _ _ _)

/-! ## Setup and Cleanup: the loops over the direction table -/

theorem resetDirections_eq (n : Nat) (s : State H) :
    (List.range n).foldl (fun t i => SetGPIODirection i (-1) t) s =
      { s with gpio_direction := fun i => if i < n then -1 else s.gpio_direction i } := by
  induction n with
  | zero => simp
  | succ n ih =>
    rw [List.range_succ, List.foldl_append, ih]
    simp only [List.foldl_cons, List.foldl_nil, SetGPIODirection]
    congr 1
    funext i
    by_cases h1 : i = n
    · simp [h1]
    · by_cases h2 : i < n
      · have h3 : i < n + 1 := by omega
        simp [h1, h2, h3]
      · have h3 : ¬ i < n + 1 := by omega
        simp [h1, h2, h3]

theorem Setup_of_unset (K : Consts) (C : Collab H) (s : State H)
    (hunset : s.setupOK = false) :
    (Setup K C s).2.gpio_direction = (fun i => if i < 54 then -1 else s.gpio_direction i) ∧
    (Setup K C s).2.gpio_mode = s.gpio_mode ∧
    (Setup K C s).2.hw = (C.setup s.hw).2 ∧
    (Setup K C s).2.trace = s.trace ++ [Call.setup] ∧
    ((Setup K C s).1 = none ↔ (C.setup s.hw).1 = K.SETUP_OK) ∧
    ((Setup K C s).2.setupOK = true ↔ (C.setup s.hw).1 = K.SETUP_OK) := by
  simp only [Setup, hunset, resetDirections_eq, State.log]
  simp only [Bool.false_eq_true, if_false]
  by_cases h0 : (C.setup s.hw).1 = K.SETUP_OK
  · simp [h0]
  · simp only [h0, if_false]
    split_ifs <;> simp [hunset]

/-- C11: when the session flag is false, after `Setup` every pin 0..53 has
recorded direction -1, whatever status code `r` the C `setup()` returns and
whatever the directions were before; `Setup` returns nil exactly when `r` is
SETUP_OK, and the session flag afterwards is true exactly when `r` is SETUP_OK. -/
theorem Setup_resets_and_reports (K : Consts) (C : Collab H) (s : State H)
    (hunset : s.setupOK = false) :
    (∀ i, i < 54 → GetGPIODirection i (Setup K C s).2 = -1) ∧
    ((Setup K C s).1 = none ↔ (C.setup s.hw).1 = K.SETUP_OK) ∧
    ((Setup K C s).2.setupOK = true ↔ (C.setup s.hw).1 = K.SETUP_OK) ∧
    ((C.setup s.hw).1 ≠ K.SETUP_OK →
      (Setup K C s).1 ≠ none ∧ (Setup K C s).2.setupOK = false) := by
  obtain ⟨hd, _, _, _, hn, hf⟩ := Setup_of_unset K C s hunset
  refine ⟨?_, hn, hf, ?_⟩
  · intro i hi
    simp only [GetGPIODirection, hd, hi, if_true]
  · intro hr
    refine ⟨fun h => hr (hn.1 h), ?_⟩
    cases hb : (Setup K C s).2.setupOK with
    | false => rfl
    | true => exact absurd (hf.1 hb) hr

theorem cleanupLoop_spec (K : Consts) (C : Collab H) (s : State H) (n : Nat) :
    ((List.range n).foldl (cleanupStep K C) s).setupOK = s.setupOK ∧
    ((List.range n).foldl (cleanupStep K C) s).gpio_mode = s.gpio_mode ∧
    ((List.range n).foldl (cleanupStep K C) s).gpio_direction =
      (fun i => if i < n then -1 else s.gpio_direction i) ∧
    ((List.range n).foldl (cleanupStep K C) s).trace =
      s.trace ++ ((List.range n).filter (fun i => decide (s.gpio_direction i ≠ -1))).map
        (fun i => Call.setup_gpio i K.INPUT K.PUD_OFF) ∧
    ((List.range n).foldl (cleanupStep K C) s).hw =
      ((List.range n).filter (fun i => decide (s.gpio_direction i ≠ -1))).foldl
        (fun h i => C.setup_gpio h i K.INPUT K.PUD_OFF) s.hw := by
  induction n with
  | zero => simp
  | succ n ih =>
    obtain ⟨h1, h2, h3, h4, h5⟩ := ih
    rw [List.range_succ, List.foldl_append, List.filter_append, List.map_append,
      List.foldl_append]
    simp only [List.foldl_cons, List.foldl_nil]
    have hdn : GetGPIODirection n ((List.range n).foldl (cleanupStep K C) s) =
        s.gpio_direction n := by
      simp [GetGPIODirection, h3]
    have hdir : ∀ (d : Nat → Int), (fun i => if i = n then (-1 : Int) else
        (fun j => if j < n then (-1 : Int) else d j) i) =
        (fun i => if i < n + 1 then (-1 : Int) else d i) := by
      intro d
      funext i
      by_cases e1 : i = n
      · simp [e1]
      · by_cases e2 : i < n
        · have e3 : i < n + 1 := by omega
          simp [e1, e2, e3]
        · have e3 : ¬ i < n + 1 := by omega
          simp [e1, e2, e3]
    by_cases hd : s.gpio_direction n = -1
    · have hstep : cleanupStep K C ((List.range n).foldl (cleanupStep K C) s) n =
          (List.range n).foldl (cleanupStep K C) s := by
        simp only [cleanupStep, hdn, hd, if_true]
      rw [hstep]
      refine ⟨h1, h2, ?_, ?_, ?_⟩
      · rw [h3]
        funext i
        by_cases e1 : i = n
        · have e3 : i < n + 1 := by omega
          simp [e1, hd]
        · by_cases e2 : i < n
          · have e3 : i < n + 1 := by omega
            simp [e2, e3]
          · have e3 : ¬ i < n + 1 := by omega
            simp [e2, e3]
      · rw [h4]
        simp [List.filter_cons, hd]
      · rw [h5]
        simp [List.filter_cons, hd]
    · have hstep : cleanupStep K C ((List.range n).foldl (cleanupStep K C) s) n =
          SetGPIODirection n (-1) (call_setup_gpio C n K.INPUT K.PUD_OFF
            ((List.range n).foldl (cleanupStep K C) s)) := by
        simp only [cleanupStep, hdn, hd, if_false]
      rw [hstep]
      refine ⟨h1, h2, ?_, ?_, ?_⟩
      · simp only [SetGPIODirection, call_setup_gpio, State.log, h3]
        exact hdir s.gpio_direction
      · simp only [SetGPIODirection, call_setup_gpio, State.log, h4]
        simp [List.filter_cons, hd]
      · simp only [SetGPIODirection, call_setup_gpio, State.log, h5]
        simp [List.filter_cons, hd]

/-- C12: `Cleanup` returns an error exactly when the session flag is false, and
then returns the state it was called in.  When the flag is true it returns nil
and afterwards every pin 0..53 has recorded direction -1, the session flag is
false, and the calls made are `setup_gpio(i, INPUT, PUD_OFF)` for exactly the
pins `i` in 0..53 whose recorded direction was not -1 (once each, in increasing
order of `i`), followed by the C `cleanup()`. -/
theorem Cleanup_reverts_configured_pins (K : Consts) (C : Collab H) (s : State H) :
    ((Cleanup K C s).1 ≠ none ↔ s.setupOK = false) ∧
    (s.setupOK = false → Cleanup K C s = (some Error.libraryNotSetUp, s)) ∧
    (s.setupOK = true →
      (Cleanup K C s).1 = none ∧
      (∀ i, i < 54 → GetGPIODirection i (Cleanup K C s).2 = -1) ∧
      (Cleanup K C s).2.setupOK = false ∧
      (Cleanup K C s).2.trace =
        s.trace ++ ((List.range 54).filter (fun i => decide (GetGPIODirection i s ≠ -1))).map
          (fun i => Call.setup_gpio i K.INPUT K.PUD_OFF) ++ [Call.cleanup] ∧
      (Cleanup K C s).2.hw =
        C.cleanup (((List.range 54).filter
          (fun i => decide (GetGPIODirection i s ≠ -1))).foldl
            (fun h i => C.setup_gpio h i K.INPUT K.PUD_OFF) s.hw)) := by
  obtain ⟨h1, h2, h3, h4, h5⟩ := cleanupLoop_spec K C s 54
  cases hs : s.setupOK with
  | false =>
    have e : Cleanup K C s = (some Error.libraryNotSetUp, s) := by
      simp [Cleanup, hs]
    refine ⟨?_, fun _ => e, fun h => absurd h (by simp)⟩
    rw [e]
    simp
  | true =>
    have e : Cleanup K C s = (none,
        { ((List.range 54).foldl (cleanupStep K C) s).log Call.cleanup with
          hw := C.cleanup ((List.range 54).foldl (cleanupStep K C) s).hw,
          setupOK := false }) := by
      simp [Cleanup, hs]
    refine ⟨?_, fun h => absurd h (by simp), fun _ => ?_⟩
    · rw [e]
      simp
    · rw [e]
      refine ⟨rfl, ?_, rfl, ?_, ?_⟩
      · intro i hi
        simp only [GetGPIODirection, State.log, h3, hi, if_true]
      · simp only [State.log, h4, GetGPIODirection]
      · simp only [State.log, h5, GetGPIODirection]

/-! ## Teardown and the numbering mode -/

theorem Setup_gpio_mode (K : Consts) (C : Collab H) (s : State H) :
    (Setup K C s).2.gpio_mode = s.gpio_mode := by
  cases hs : s.setupOK with
  | true => simp only [Setup, hs, if_true]
  | false => exact (Setup_of_unset K C s hs).2.1

theorem Cleanup_gpio_mode (K : Consts) (C : Collab H) (s : State H) :
    (Cleanup K C s).2.gpio_mode = s.gpio_mode := by
  cases hs : s.setupOK with
  | false => simp [Cleanup, hs]
  | true =>
    have h := (cleanupLoop_spec K C s 54).2.1
    simp [Cleanup, hs, State.log, h]

theorem SetMode_mode_of_nil (K : Consts) (m : Int) (s : State H)
    (hset : s.setupOK = true) (h : (SetMode K m s).1 = none) :
    (SetMode K m s).2.gpio_mode = toCInt m := by
  simp only [SetMode, SetupOK_of_set s hset, GetGPIOMode] at h ⊢
  split_ifs at h ⊢
  rfl

/-- C13 (as amended): in a set-up session `Cleanup` returns nil and leaves the
numbering mode as it was (no operation resets it to MODE_UNKNOWN); so when
`Setup`, `SetMode(BCM)`, `Cleanup` and a second `Setup` all return nil, `GetMode`
then returns `(BCM, nil)` and `SetMode(BOARD)` returns the different-mode error.
(BOARD and BCM are C `int` constants, distinct from each other, and BCM is not
MODE_UNKNOWN.) -/
theorem Cleanup_keeps_mode (K : Consts) (C : Collab H) (s s0 s1 s2 s3 s4 : State H)
    (hset : s.setupOK = true)
    (hB : toCInt K.BOARD = K.BOARD) (hC : toCInt K.BCM = K.BCM)
    (hBC : K.BOARD ≠ K.BCM) (hCU : K.BCM ≠ K.MODE_UNKNOWN)
    (h1 : Setup K C s0 = (none, s1)) (h2 : SetMode K K.BCM s1 = (none, s2))
    (h3 : Cleanup K C s2 = (none, s3)) (h4 : Setup K C s3 = (none, s4)) :
    (Cleanup K C s).1 = none ∧
    GetGPIOMode (Cleanup K C s).2 = GetGPIOMode s ∧
    (GetMode K s4).1 = (K.BCM, none) ∧
    (SetMode K K.BOARD s4).1 = some Error.differentMode := by
  have hc1 : (Cleanup K C s).1 = none := by simp [Cleanup, hset]
  have e1 : s1.setupOK = true := by
    have := Setup_flag_of_nil K C s0 (by rw [h1])
    rw [h1] at this
    exact this
  have m2 : s2.gpio_mode = K.BCM := by
    have := SetMode_mode_of_nil K K.BCM s1 e1 (by rw [h2])
    rw [h2, hC] at this
    exact this
  have m3 : s3.gpio_mode = K.BCM := by
    have := Cleanup_gpio_mode K C s2
    rw [h3] at this
    exact this.trans m2
  have m4 : s4.gpio_mode = K.BCM := by
    have := Setup_gpio_mode K C s3
    rw [h4] at this
    exact this.trans m3
  have e4 : s4.setupOK = true := by
    have := Setup_flag_of_nil K C s3 (by rw [h4])
    rw [h4] at this
    exact this
  refine ⟨hc1, Cleanup_gpio_mode K C s, ?_, ?_⟩
  · simp only [GetMode, SetupOK_of_set s4 e4, GetGPIOMode, m4]
  · have hcond : s4.gpio_mode ≠ K.MODE_UNKNOWN ∧ s4.gpio_mode ≠ toCInt K.BOARD := by
      rw [m4, hB]
      exact ⟨hCU, fun h => hBC h.symm⟩
    simp only [SetMode, SetupOK_of_set s4 e4, GetGPIOMode]
    rw [if_pos hcond]

/-! ## The hardware call of a successful channel setup -/

/-- C14: when `SetupChannel(c, p, output)` returns nil, with `c` resolving to
pin `g`, the calls made are the resolution, `gpio_function(g)` and exactly one
`setup_gpio`: `setup_gpio(g, OUTPUT, PUD_OFF)` when `output` is true, whatever
`p` was, and `setup_gpio(g, INPUT, p)` when `output` is false.  A pull mode
that is none of PUD_OFF, PUD_UP, PUD_DOWN gives an error and the unchanged
state (no call at all), for either value of `output`; in a set-up session the
error is the invalid-pull error. -/
theorem SetupChannel_programs_hardware (K : Consts) (C : Collab H) (s : State H)
    (c p g : Nat) (o : Bool) (hres : (GetGPIONumber C c s).1 = (g, none))
    (hnil : (SetupChannel K C c p o s).1 = none) :
    (SetupChannel K C c p o s).2.trace =
      s.trace ++ [Call.get_gpio_number c, Call.gpio_function g,
        Call.setup_gpio g (if o then K.OUTPUT else K.INPUT)
          (if o then K.PUD_OFF else (p : Int))] ∧
    (SetupChannel K C c p o s).2.hw =
      C.setup_gpio s.hw g (if o then K.OUTPUT else K.INPUT)
        (if o then K.PUD_OFF else (p : Int)) ∧
    (∀ (q : Nat) (o2 : Bool) (t : State H),
      ¬ ((q : Int) = K.PUD_OFF ∨ (q : Int) = K.PUD_UP ∨ (q : Int) = K.PUD_DOWN) →
      (SetupChannel K C c q o2 t).1 ≠ none ∧ (SetupChannel K C c q o2 t).2 = t ∧
      (t.setupOK = true →
        (SetupChannel K C c q o2 t).1 = some (Error.invalidPullUpDown q))) := by
  have hset : s.setupOK = true := by
    cases hs : s.setupOK with
    | true => rfl
    | false =>
      simp only [SetupChannel, SetupOK_of_unset s hs] at hnil
      simp at hnil
  have hp : validatePullUpDown K p = none := by
    cases hv : validatePullUpDown K p with
    | none => rfl
    | some e =>
      simp only [SetupChannel, SetupOK_of_set s hset, hv] at hnil
      simp at hnil
  have e := SetupChannel_resolved K C s c p g o hset hp hres
  rw [e] at hnil ⊢
  refine ⟨?_, ?_, ?_⟩
  · by_cases c1 : C.gpio_function s.hw g ≠ 0 ∧ C.gpio_function s.hw g ≠ 1
    · rw [if_pos c1] at hnil
      simp at hnil
    · by_cases c2 : C.gpio_function s.hw g = 1 ∧ s.gpio_direction g ≠ -1
      · rw [if_neg c1, if_pos c2] at hnil
        simp at hnil
      · rw [if_neg c1, if_neg c2]
        simp [call_setup_gpio, State.log]
  · by_cases c1 : C.gpio_function s.hw g ≠ 0 ∧ C.gpio_function s.hw g ≠ 1
    · rw [if_pos c1] at hnil
      simp at hnil
    · by_cases c2 : C.gpio_function s.hw g = 1 ∧ s.gpio_direction g ≠ -1
      · rw [if_neg c1, if_pos c2] at hnil
        simp at hnil
      · rw [if_neg c1, if_neg c2]
        simp [call_setup_gpio, State.log]
  · intro q o2 t hq
    have hv : validatePullUpDown K q = some (Error.invalidPullUpDown q) := by
      simp only [validatePullUpDown, hq, if_false]
    cases ht : t.setupOK with
    | false =>
      simp [SetupChannel, SetupOK_of_unset t ht]
    | true =>
      simp [SetupChannel, SetupOK_of_set t ht, hv]

/-! ## Soft PWM -/

theorem PWMExists_resolved (C : Collab H) (s : State H) (c g : Nat)
    (hset : s.setupOK = true) (hres : (GetGPIONumber C c s).1 = (g, none)) :
    PWMExists C c s = ((decide (C.pwm_exists s.hw g ≠ 0), none),
      (s.log (Call.get_gpio_number c)).log (Call.pwm_exists g)) := by
  have hG := GetGPIONumber_resolved C c g s hres
  simp only [PWMExists, SetupOK_of_set s hset, hG]
  rfl

theorem NewPWM_unresolved (K : Consts) (C : Collab H) (s : State H) (c n : Nat)
    (f : F32) (e : Error) (hres : (GetGPIONumber C c s).1 = (n, some e)) :
    NewPWM K C c f s = ((none, some e), s.log (Call.get_gpio_number c)) := by
  have hG : GetGPIONumber C c s = ((n, some e), s.log (Call.get_gpio_number c)) := by
    rw [← GetGPIONumber_state C c s, ← hres]
  simp only [NewPWM, hG]

theorem NewPWM_unset (K : Consts) (C : Collab H) (s : State H) (c g : Nat) (f : F32)
    (hunset : s.setupOK = false) (hres : (GetGPIONumber C c s).1 = (g, none)) :
    NewPWM K C c f s =
      ((none, some Error.setupNotCalled), s.log (Call.get_gpio_number c)) := by
  have hG := GetGPIONumber_resolved C c g s hres
  have h1 : SetupOK (s.log (Call.get_gpio_number c)) = some Error.setupNotCalled :=
    SetupOK_of_unset _ hunset
  simp only [NewPWM, hG, PWMExists, h1]

theorem NewPWM_resolved (K : Consts) (C : Collab H) (s : State H) (c g : Nat) (f : F32)
    (hset : s.setupOK = true) (hres : (GetGPIONumber C c s).1 = (g, none)) :
    NewPWM K C c f s =
      if C.pwm_exists s.hw g ≠ 0 then
        ((none, some (Error.pwmAlreadyExists c)),
          ((s.log (Call.get_gpio_number c)).log (Call.get_gpio_number c)).log
            (Call.pwm_exists g))
      else if s.gpio_direction g ≠ K.OUTPUT then
        ((none, some (Error.pwmNotAnOutput c)),
          ((s.log (Call.get_gpio_number c)).log (Call.get_gpio_number c)).log
            (Call.pwm_exists g))
      else if F32.le f (F32.fin 0) = true then
        ((none, some (Error.pwmFrequencyNotPositive f)),
          ((s.log (Call.get_gpio_number c)).log (Call.get_gpio_number c)).log
            (Call.pwm_exists g))
      else
        ((some { gpio := g, frequency := f, dutyCycle := F32.fin 0 }, none),
          ((s.log (Call.get_gpio_number c)).log (Call.get_gpio_number c)).log
            (Call.pwm_exists g)) := by
  have hG := GetGPIONumber_resolved C c g s hres
  have hres2 : (GetGPIONumber C c (s.log (Call.get_gpio_number c))).1 = (g, none) :=
    (GetGPIONumber_of_mode C c s (s.log (Call.get_gpio_number c)) rfl).trans hres
  have hP := PWMExists_resolved C (s.log (Call.get_gpio_number c)) c g hset hres2
  simp only [NewPWM, hG, hP, GetGPIODirection]
  by_cases h1 : C.pwm_exists s.hw g ≠ 0
  · have h1b : C.pwm_exists (s.log (Call.get_gpio_number c)).hw g ≠ 0 := h1
    simp [h1, h1b]
  · have h1b : ¬ C.pwm_exists (s.log (Call.get_gpio_number c)).hw g ≠ 0 := h1
    simp only [h1, h1b, decide_False, if_false, Bool.false_eq_true]
    rfl

theorem GetGPIONumber_cases (C : Collab H) (c : Nat) (s : State H) :
    (∃ g, (GetGPIONumber C c s).1 = (g, none)) ∨
    (∃ n e, (GetGPIONumber C c s).1 = (n, some e)) := by
  rcases h : (GetGPIONumber C c s).1 with ⟨n, e⟩
  cases e with
  | none => exact Or.inl ⟨n, rfl⟩
  | some e => exact Or.inr ⟨n, e, rfl⟩

theorem NewPWM_frame (K : Consts) (C : Collab H) (s : State H) (c : Nat) (f : F32) :
    SameRegistry s (NewPWM K C c f s).2 ∧
    (NewPWM K C c f s).2.gpio_mode = s.gpio_mode ∧
    (NewPWM K C c f s).2.hw = s.hw := by
  rcases GetGPIONumber_cases C c s with ⟨g, hres⟩ | ⟨n, e, hres⟩
  · cases hs : s.setupOK with
    | false =>
      rw [NewPWM_unset K C s c g f hs hres]
      exact ⟨⟨rfl, rfl⟩, rfl, rfl⟩
    | true =>
      rw [NewPWM_resolved K C s c g f hs hres]
      split_ifs <;> exact ⟨⟨rfl, rfl⟩, rfl, rfl⟩
  · rw [NewPWM_unresolved K C s c n f e hres]
    exact ⟨⟨rfl, rfl⟩, rfl, rfl⟩

theorem NewPWM_handle_iff (K : Consts) (C : Collab H) (s : State H) (c : Nat) (f : F32)
    (p : PWMObject) :
    (NewPWM K C c f s).1 = (some p, none) ↔
      ∃ g, (GetGPIONumber C c s).1 = (g, none) ∧ s.setupOK = true ∧
        C.pwm_exists s.hw g = 0 ∧ GetGPIODirection g s = K.OUTPUT ∧
        F32.le f (F32.fin 0) = false ∧
        p = { gpio := g, frequency := f, dutyCycle := F32.fin 0 } := by
  rcases GetGPIONumber_cases C c s with ⟨g, hres⟩ | ⟨n, e, hres⟩
  · cases hs : s.setupOK with
    | false =>
      rw [NewPWM_unset K C s c g f hs hres]
      constructor
      · intro h
        simp at h
      · rintro ⟨_, _, h, _⟩
        simp at h
    | true =>
      rw [NewPWM_resolved K C s c g f hs hres]
      constructor
      · intro h
        split_ifs at h with h1 h2 h3
        · simp at h
        · simp at h
        · simp at h
        · refine ⟨g, hres, rfl, ?_, ?_, ?_, ?_⟩
          · exact not_not.mp h1
          · exact not_not.mp h2
          · simpa using h3
          · simp only [Prod.mk.injEq, Option.some.injEq, and_true] at h
            exact h.symm
      · rintro ⟨g2, hres2, _, h1, h2, h3, hp⟩
        have hg : g2 = g := by
          rw [hres] at hres2
          simp only [Prod.mk.injEq, and_true] at hres2
          exact hres2.symm
        subst hg
        have h2b : s.gpio_direction g2 = K.OUTPUT := h2
        simp [h1, h2b, h3, hp]
  · rw [NewPWM_unresolved K C s c n f e hres]
    constructor
    · intro h
      simp at h
    · rintro ⟨g, hres2, _⟩
      rw [hres] at hres2
      simp at hres2

theorem NewPWM_nil_handle_has_error (K : Consts) (C : Collab H) (s : State H) (c : Nat)
    (f : F32) (h : (NewPWM K C c f s).1.1 = none) : (NewPWM K C c f s).1.2 ≠ none := by
  rcases GetGPIONumber_cases C c s with ⟨g, hres⟩ | ⟨n, e, hres⟩
  · cases hs : s.setupOK with
    | false =>
      rw [NewPWM_unset K C s c g f hs hres]
      simp
    | true =>
      rw [NewPWM_resolved K C s c g f hs hres] at h ⊢
      split_ifs at h ⊢ <;> simp at h ⊢
  · rw [NewPWM_unresolved K C s c n f e hres]
    simp

theorem F32.out_of_range_iff (d : F32) (hd : d ≠ F32.nan) :
    (F32.lt d (F32.fin 0) = true ∨ F32.lt (F32.fin 100) d = true) ↔
      ¬ (F32.le (F32.fin 0) d = true ∧ F32.le d (F32.fin 100) = true) := by
  cases d with
  | nan => exact absurd rfl hd
  | negInf => simp [F32.lt, F32.le]
  | posInf => simp [F32.lt, F32.le]
  | fin q =>
    simp only [F32.lt, F32.le, decide_eq_true_eq]
    constructor
    · rintro (h | h) ⟨h1, h2⟩
      · exact absurd h1 (not_le.mpr h)
      · exact absurd h2 (not_le.mpr h)
    · intro h
      by_cases h1 : q < 0
      · exact Or.inl h1
      · right
        by_contra h2
        exact h ⟨not_lt.mp h1, not_lt.mp h2⟩

theorem F32.not_le_zero_iff (f : F32) (hf : f ≠ F32.nan) :
    F32.le f (F32.fin 0) = false ↔ F32.lt (F32.fin 0) f = true := by
  cases f with
  | nan => exact absurd rfl hf
  | negInf => simp [F32.lt, F32.le]
  | posInf => simp [F32.lt, F32.le]
  | fin q => simp [F32.lt, F32.le]

theorem Start_spec (C : Collab H) (p : PWMObject) (d : F32) (s : State H) :
    ((p.Start C d s).1.1 ≠ none ↔
      (F32.lt d (F32.fin 0) = true ∨ F32.lt (F32.fin 100) d = true)) ∧
    ((p.Start C d s).1.1 ≠ none → (p.Start C d s).1.2 = p ∧ (p.Start C d s).2 = s) ∧
    ((p.Start C d s).1.1 = none →
      (p.Start C d s).1.2 = { p with dutyCycle := d } ∧
      (p.Start C d s).2.trace =
        s.trace ++ [Call.pwm_set_duty_cycle p.gpio d, Call.pwm_start p.gpio] ∧
      (p.Start C d s).2.hw = C.pwm_start (C.pwm_set_duty_cycle s.hw p.gpio d) p.gpio) := by
  by_cases h : F32.lt d (F32.fin 0) = true ∨ F32.lt (F32.fin 100) d = true
  · simp [PWMObject.Start, h]
  · simp [PWMObject.Start, h, State.log]

theorem ChangeDutyCycle_spec (C : Collab H) (p : PWMObject) (d : F32) (s : State H) :
    ((p.ChangeDutyCycle C d s).1.1 ≠ none ↔
      (F32.lt d (F32.fin 0) = true ∨ F32.lt (F32.fin 100) d = true)) ∧
    ((p.ChangeDutyCycle C d s).1.1 ≠ none →
      (p.ChangeDutyCycle C d s).1.2 = p ∧ (p.ChangeDutyCycle C d s).2 = s) ∧
    ((p.ChangeDutyCycle C d s).1.1 = none →
      (p.ChangeDutyCycle C d s).1.2 = { p with dutyCycle := d } ∧
      (p.ChangeDutyCycle C d s).2.trace = s.trace ++ [Call.pwm_set_duty_cycle p.gpio d] ∧
      (p.ChangeDutyCycle C d s).2.hw = C.pwm_set_duty_cycle s.hw p.gpio d) := by
  by_cases h : F32.lt d (F32.fin 0) = true ∨ F32.lt (F32.fin 100) d = true
  · simp [PWMObject.ChangeDutyCycle, h]
  · simp [PWMObject.ChangeDutyCycle, h, State.log]

theorem ChangeFrequency_spec (C : Collab H) (p : PWMObject) (f : F32) (s : State H) :
    ((p.ChangeFrequency C f s).1.1 ≠ none ↔ F32.le f (F32.fin 0) = true) ∧
    ((p.ChangeFrequency C f s).1.1 ≠ none →
      (p.ChangeFrequency C f s).1.2 = p ∧ (p.ChangeFrequency C f s).2 = s) ∧
    ((p.ChangeFrequency C f s).1.1 = none →
      (p.ChangeFrequency C f s).1.2 = { p with frequency := f } ∧
      (p.ChangeFrequency C f s).2.trace = s.trace ++ [Call.pwm_set_frequency p.gpio f] ∧
      (p.ChangeFrequency C f s).2.hw = C.pwm_set_frequency s.hw p.gpio f) := by
  by_cases h : F32.le f (F32.fin 0) = true
  · simp [PWMObject.ChangeFrequency, h]
  · simp [PWMObject.ChangeFrequency, h, State.log]

/-! ## The registry invariant -/

theorem GetGPIONumber_resolved_value (C : Collab H) (c g : Nat) (s : State H)
    (hres : (GetGPIONumber C c s).1 = (g, none)) :
    (C.get_gpio_number s.gpio_mode c).1 = 0 ∧
    (C.get_gpio_number s.gpio_mode c).2 < 255 ∧
    g = (C.get_gpio_number s.gpio_mode c).2 := by
  simp only [GetGPIONumber] at hres
  split_ifs at hres with h1 h2
  · simp at hres
  · simp at hres
  · simp only [Prod.mk.injEq, and_true] at hres
    have h3 : (C.get_gpio_number s.gpio_mode c).2 < 255 := by omega
    refine ⟨not_not.mp h1, h3, ?_⟩
    omega

theorem GetGPIONumber_error_iff (C : Collab H) (c : Nat) (s : State H) :
    (GetGPIONumber C c s).1.2 ≠ none ↔
      ((C.get_gpio_number s.gpio_mode c).1 ≠ 0 ∨
        (C.get_gpio_number s.gpio_mode c).2 ≥ 255) := by
  simp only [GetGPIONumber]
  split_ifs with h1 h2
  · simp [h1]
  · simp [h2]
  · simp [h1, h2]

theorem SameRegistry.unset {s t : State H} (h : SameRegistry s t) (hs : RegistryUnset s) :
    RegistryUnset t := by
  intro ht i hi
  rw [h.2]
  exact hs (h.1 ▸ ht) i hi

theorem SetupChannel_registry (K : Consts) (C : Collab H) (s : State H) (c p : Nat)
    (o : Bool) : SameRegistry s (SetupChannel K C c p o s).2 := by
  cases hn : (SetupChannel K C c p o s).1 with
  | some e =>
    have h := SetupChannel_error_frame K C s c p o (by rw [hn]; simp)
    exact ⟨h.2.2.1, h.2.2.2.1⟩
  | none =>
    have hset : s.setupOK = true := by
      cases hs : s.setupOK with
      | true => rfl
      | false =>
        simp only [SetupChannel, SetupOK_of_unset s hs] at hn
        simp at hn
    have hp : validatePullUpDown K p = none := by
      cases hv : validatePullUpDown K p with
      | none => rfl
      | some e =>
        simp only [SetupChannel, SetupOK_of_set s hset, hv] at hn
        simp at hn
    rcases GetGPIONumber_cases C c s with ⟨g, hres⟩ | ⟨n, e, hres⟩
    · rw [SetupChannel_resolved K C s c p g o hset hp hres]
      split_ifs <;> exact ⟨rfl, rfl⟩
    · have hG : GetGPIONumber C c s = ((n, some e), s.log (Call.get_gpio_number c)) := by
        rw [← GetGPIONumber_state C c s, ← hres]
      simp only [SetupChannel, SetupOK_of_set s hset, hp, hG]
      exact ⟨rfl, rfl⟩

theorem OutputGPIO_registry (K : Consts) (C : Collab H) (s : State H) (c : Nat)
    (v : Bool) : SameRegistry s ( OutputGPIO K C c v s).2 := by
  cases hs : s.setupOK with
  | false =>
    simp only [ OutputGPIO, SetupOK_of_unset s hs]
    exact ⟨rfl, rfl⟩
  | true =>
    rcases GetGPIONumber_cases C c s with ⟨g, hres⟩ | ⟨n, e, hres⟩
    · have hG := GetGPIONumber_resolved C c g s hres
      simp only [ OutputGPIO, SetupOK_of_set s hs, hG]
      split_ifs <;> exact ⟨rfl, rfl⟩
    · have hG : GetGPIONumber C c s = ((n, some e), s.log (Call.get_gpio_number c)) := by
        rw [← GetGPIONumber_state C c s, ← hres]
      simp only [ OutputGPIO, SetupOK_of_set s hs, hG]
      exact ⟨rfl, rfl⟩

theorem InputGPIO_registry (K : Consts) (C : Collab H) (s : State H) (c : Nat) :
    SameRegistry s ( InputGPIO K C c s).2 := by
  cases hs : s.setupOK with
  | false =>
    simp only [ InputGPIO, SetupOK_of_unset s hs]
    exact ⟨rfl, rfl⟩
  | true =>
    rcases GetGPIONumber_cases C c s with ⟨g, hres⟩ | ⟨n, e, hres⟩
    · have hG := GetGPIONumber_resolved C c g s hres
      simp only [ InputGPIO, SetupOK_of_set s hs, hG]
      split_ifs <;> exact ⟨rfl, rfl⟩
    · have hG : GetGPIONumber C c s = ((n, some e), s.log (Call.get_gpio_number c)) := by
        rw [← GetGPIONumber_state C c s, ← hres]
      simp only [ InputGPIO, SetupOK_of_set s hs, hG]
      exact ⟨rfl, rfl⟩

theorem PWMExists_registry (C : Collab H) (s : State H) (c : Nat) :
    SameRegistry s (PWMExists C c s).2 := by
  cases hs : s.setupOK with
  | false =>
    simp only [PWMExists, SetupOK_of_unset s hs]
    exact ⟨rfl, rfl⟩
  | true =>
    rcases GetGPIONumber_cases C c s with ⟨g, hres⟩ | ⟨n, e, hres⟩
    · rw [PWMExists_resolved C s c g hs hres]
      exact ⟨rfl, rfl⟩
    · have hG : GetGPIONumber C c s = ((n, some e), s.log (Call.get_gpio_number c)) := by
        rw [← GetGPIONumber_state C c s, ← hres]
      simp only [PWMExists, SetupOK_of_set s hs, hG]
      exact ⟨rfl, rfl⟩

theorem SetMode_registry (K : Consts) (m : Int) (s : State H) :
    SameRegistry s (SetMode K m s).2 := by
  unfold SetMode
  cases hs : SetupOK s with
  | some e => exact ⟨rfl, rfl⟩
  | none =>
    simp only [SetGPIOMode]
    split_ifs <;> exact ⟨rfl, rfl⟩

theorem GetMode_registry (K : Consts) (s : State H) :
    SameRegistry s (GetMode K s).2 := by
  unfold GetMode
  cases hs : SetupOK s with
  | some e => exact ⟨rfl, rfl⟩
  | none => exact ⟨rfl, rfl⟩

theorem CheckGPIOPriv_registry (C : Collab H) (s : State H) :
    SameRegistry s (CheckGPIOPriv C s).2 := by
  simp only [CheckGPIOPriv]
  split_ifs <;> exact ⟨rfl, rfl⟩

theorem PWM_methods_registry (C : Collab H) (p : PWMObject) (x : F32) (s : State H) :
    SameRegistry s (p.Start C x s).2 ∧ SameRegistry s (p.ChangeDutyCycle C x s).2 ∧
    SameRegistry s (p.ChangeFrequency C x s).2 ∧ SameRegistry s (p.Stop C s).2 := by
  refine ⟨?_, ?_, ?_, ⟨rfl, rfl⟩⟩
  · simp only [PWMObject.Start]
    split_ifs <;> exact ⟨rfl, rfl⟩
  · simp only [PWMObject.ChangeDutyCycle]
    split_ifs <;> exact ⟨rfl, rfl⟩
  · simp only [PWMObject.ChangeFrequency]
    split_ifs <;> exact ⟨rfl, rfl⟩

theorem OutputGPIO_nil_of_resolved (K : Consts) (C : Collab H) (s : State H) (c g : Nat)
    (v : Bool) (hset : s.setupOK = true) (hres : (GetGPIONumber C c s).1 = (g, none)) :
    ( OutputGPIO K C c v s).1 = none ↔ GetGPIODirection g s = K.OUTPUT := by
  have hG := GetGPIONumber_resolved C c g s hres
  by_cases hd : s.gpio_direction g = K.OUTPUT
  · simp [ OutputGPIO, SetupOK_of_set s hset, hG, GetGPIODirection, State.log, hd]
  · simp [ OutputGPIO, SetupOK_of_set s hset, hG, GetGPIODirection, State.log, hd]

theorem Setup_unset (K : Consts) (C : Collab H) (s : State H) (hs : RegistryUnset s) :
    RegistryUnset (Setup K C s).2 := by
  cases hf : s.setupOK with
  | true =>
    have e : Setup K C s = (none, s) := by simp only [Setup, hf, if_true]
    rw [e]
    exact hs
  | false =>
    intro _ i hi
    rw [(Setup_of_unset K C s hf).1]
    simp only [hi, if_true]

theorem Cleanup_unset (K : Consts) (C : Collab H) (s : State H) (hs : RegistryUnset s) :
    RegistryUnset (Cleanup K C s).2 := by
  cases hf : s.setupOK with
  | false =>
    have e : Cleanup K C s = (some Error.libraryNotSetUp, s) := by simp [Cleanup, hf]
    rw [e]
    exact hs
  | true =>
    intro ht
    have e : (Cleanup K C s).2.setupOK = false := by simp [Cleanup, hf]
    rw [e] at ht
    exact absurd ht (by simp)

theorem CleanupChannel_unset (K : Consts) (C : Collab H) (s : State H) (c : Nat)
    (hs : RegistryUnset s) : RegistryUnset (CleanupChannel K C c s).2 := by
  cases hf : s.setupOK with
  | false =>
    simp only [CleanupChannel, SetupOK_of_unset s hf]
    exact hs
  | true =>
    rcases GetGPIONumber_cases C c s with ⟨g, hres⟩ | ⟨n, e, hres⟩
    · by_cases hd : s.gpio_direction g = -1
      · rw [CleanupChannel_of_unset K C s c g hf hres hd]
        exact hs
      · rw [CleanupChannel_of_set K C s c g hf hres hd]
        intro _ i hi
        by_cases hig : i = g
        · simp [SetGPIODirection, hig]
        · simp only [SetGPIODirection, call_setup_gpio, State.log, hig, if_false]
          exact hs hf i hi
    · have hG : GetGPIONumber C c s = ((n, some e), s.log (Call.get_gpio_number c)) := by
        rw [← GetGPIONumber_state C c s, ← hres]
      simp only [CleanupChannel, SetupOK_of_set s hf, hG]
      exact hs

theorem Op.run_unset (K : Consts) (C : Collab H) (op : Op) (s : State H)
    (hs : RegistryUnset s) : RegistryUnset (op.run K C s) := by
  cases op with
  | setupOK => exact hs
  | setup => exact Setup_unset K C s hs
  | cleanupChannel c => exact CleanupChannel_unset K C s c hs
  | cleanup => exact Cleanup_unset K C s hs
  | checkGPIOPriv => exact (CheckGPIOPriv_registry C s).unset hs
  | getGPIONumber c =>
    simp only [Op.run, GetGPIONumber_state]
    exact hs
  | gpioFunction g => exact hs
  | setupChannel c p o => exact (SetupChannel_registry K C s c p o).unset hs
  | outputGpio c v => exact (OutputGPIO_registry K C s c v).unset hs
  | inputGpio c => exact (InputGPIO_registry K C s c).unset hs
  | setMode m => exact (SetMode_registry K m s).unset hs
  | getMode => exact (GetMode_registry K s).unset hs
  | pwmExists c => exact (PWMExists_registry C s c).unset hs
  | newPWM c f => exact (NewPWM_frame K C s c f).1.unset hs
  | pwmStart p d => exact (PWM_methods_registry C p d s).1.unset hs
  | pwmChangeDutyCycle p d => exact (PWM_methods_registry C p d s).2.1.unset hs
  | pwmChangeFrequency p f => exact (PWM_methods_registry C p f s).2.2.1.unset hs
  | pwmStop p => exact (PWM_methods_registry C p F32.nan s).2.2.2.unset hs

theorem runOps_unset (K : Consts) (C : Collab H) (ops : List Op) :
    ∀ s : State H, RegistryUnset s → RegistryUnset (runOps K C ops s) := by
  induction ops with
  | nil => intro s hs; exact hs
  | cons op ops ih =>
    intro s hs
    exact ih (op.run K C s) (Op.run_unset K C op s hs)

theorem resolved_in_table (C : Collab H) (c g : Nat) (s : State H)
    (htab : ∀ m x, (C.get_gpio_number m x).1 = 0 → (C.get_gpio_number m x).2 < 54)
    (hres : (GetGPIONumber C c s).1 = (g, none)) : g < 54 := by
  obtain ⟨h1, _, h3⟩ := GetGPIONumber_resolved_value C c g s hres
  rw [h3]
  exact htab _ _ h1

/-- C19: in every state reached from a state with the session flag false (as
the Go variable `setupOK` starts) by a finite sequence of public operations, if
the session flag is true then every pin 0..53 has recorded direction -1.
Hence, when OUTPUT and INPUT are not -1 and the resolver only yields pins of
the 54-entry table, in every such state `OutputGPIO` and `InputGPIO` return an
error for every channel and `NewPWM` returns no handle for every channel and
frequency. -/
theorem registry_invariant (K : Consts) (C : Collab H) (s0 : State H) (ops : List Op)
    (hinit : s0.setupOK = false) :
    ((runOps K C ops s0).setupOK = true →
      ∀ i, i < 54 → GetGPIODirection i (runOps K C ops s0) = -1) ∧
    (K.OUTPUT ≠ -1 → K.INPUT ≠ -1 →
      (∀ m x, (C.get_gpio_number m x).1 = 0 → (C.get_gpio_number m x).2 < 54) →
      (∀ c v, ( OutputGPIO K C c v (runOps K C ops s0)).1 ≠ none) ∧
      (∀ c, ( InputGPIO K C c (runOps K C ops s0)).1.2 ≠ none) ∧
      (∀ c f, (NewPWM K C c f (runOps K C ops s0)).1.1 = none)) := by
  have hinv : RegistryUnset (runOps K C ops s0) :=
    runOps_unset K C ops s0 (fun h => absurd (hinit ▸ h) (by simp))
  refine ⟨hinv, ?_⟩
  intro hO hI htab
  generalize runOps K C ops s0 = s at hinv
  refine ⟨?_, ?_, ?_⟩
  · intro c v
    cases hf : s.setupOK with
    | false => simp [ OutputGPIO, SetupOK_of_unset s hf]
    | true =>
      rcases GetGPIONumber_cases C c s with ⟨g, hres⟩ | ⟨n, e, hres⟩
      · have hg := resolved_in_table C c g s htab hres
        have hd : GetGPIODirection g s ≠ K.OUTPUT := by
          simp only [GetGPIODirection, hinv hf g hg]
          exact fun h => hO h.symm
        intro h
        exact hd ((OutputGPIO_nil_of_resolved K C s c g v hf hres).1 h)
      · have hG : GetGPIONumber C c s = ((n, some e), s.log (Call.get_gpio_number c)) := by
          rw [← GetGPIONumber_state C c s, ← hres]
        simp [ OutputGPIO, SetupOK_of_set s hf, hG]
  · intro c
    cases hf : s.setupOK with
    | false => simp [ InputGPIO, SetupOK_of_unset s hf]
    | true =>
      rcases GetGPIONumber_cases C c s with ⟨g, hres⟩ | ⟨n, e, hres⟩
      · have hg := resolved_in_table C c g s htab hres
        have hG := GetGPIONumber_resolved C c g s hres
        have hd : GetGPIODirection g (s.log (Call.get_gpio_number c)) ≠ K.INPUT ∧
            GetGPIODirection g (s.log (Call.get_gpio_number c)) ≠ K.OUTPUT := by
          simp only [GetGPIODirection, State.log, hinv hf g hg]
          exact ⟨fun h => hI h.symm, fun h => hO h.symm⟩
        simp only [ InputGPIO, SetupOK_of_set s hf, hG]
        rw [if_pos hd]
        simp
      · have hG : GetGPIONumber C c s = ((n, some e), s.log (Call.get_gpio_number c)) := by
          rw [← GetGPIONumber_state C c s, ← hres]
        simp [ InputGPIO, SetupOK_of_set s hf, hG]
  · intro c f
    cases hp : (NewPWM K C c f s).1.1 with
    | none => rfl
    | some p =>
      exfalso
      cases he : (NewPWM K C c f s).1.2 with
      | some e =>
        rcases GetGPIONumber_cases C c s with ⟨g, hres⟩ | ⟨n, e2, hres⟩
        · cases hf : s.setupOK with
          | false =>
            rw [NewPWM_unset K C s c g f hf hres] at hp
            simp at hp
          | true =>
            rw [NewPWM_resolved K C s c g f hf hres] at hp he
            split_ifs at hp he
        · rw [NewPWM_unresolved K C s c n f e2 hres] at hp
          simp at hp
      | none =>
        have hpair : (NewPWM K C c f s).1 = (some p, none) := Prod.ext hp he
        obtain ⟨g, hres, hf, _, hd, _⟩ := (NewPWM_handle_iff K C s c f p).1 hpair
        have hg := resolved_in_table C c g s htab hres
        simp only [GetGPIODirection, hinv hf g hg] at hd
        exact hO hd.symm

/-- C20 (as amended): when `GetGPIONumber(c)` returns `(g, nil)`, the C
resolver returned code 0, `g` is the value it returned and `g` is below 255
(the only bound the code checks is the `uint8` overflow guard on the value);
`g` is below 54 whenever the resolver only yields values below 54.
`GetGPIONumber` returns an error exactly when the code is non-zero or the
value is at least 255. -/
theorem GetGPIONumber_bound (C : Collab H) (s : State H) (c g : Nat)
    (hres : (GetGPIONumber C c s).1 = (g, none)) :
    (C.get_gpio_number s.gpio_mode c).1 = 0 ∧
    g = (C.get_gpio_number s.gpio_mode c).2 ∧
    g < 255 ∧
    ((∀ m x, (C.get_gpio_number m x).1 = 0 → (C.get_gpio_number m x).2 < 54) → g < 54) ∧
    (∀ (t : State H) (x : Nat), (GetGPIONumber C x t).1.2 ≠ none ↔
      ((C.get_gpio_number t.gpio_mode x).1 ≠ 0 ∨
        (C.get_gpio_number t.gpio_mode x).2 ≥ 255)) := by
  obtain ⟨h1, h2, h3⟩ := GetGPIONumber_resolved_value C c g s hres
  refine ⟨h1, h3, ?_, ?_, ?_⟩
  · rw [h3]
    exact h2
  · intro htab
    exact resolved_in_table C c g s htab hres
  · intro t x
    exact GetGPIONumber_error_iff C x t

/-! ## Claims on the states the package can reach -/

theorem reachable_unset (K : Consts) (C : Collab H) (s0 : State H) (ops : List Op)
    (hinit : s0.setupOK = false) : RegistryUnset (runOps K C ops s0) :=
  runOps_unset K C ops s0 (fun h => absurd (hinit ▸ h) (by simp))

theorem NewPWM_none_of_unset (K : Consts) (C : Collab H) (s : State H) (c : Nat) (f : F32)
    (hs : RegistryUnset s) (hO : K.OUTPUT ≠ -1)
    (htab : ∀ m x, (C.get_gpio_number m x).1 = 0 → (C.get_gpio_number m x).2 < 54) :
    (NewPWM K C c f s).1.1 = none := by
  rcases GetGPIONumber_cases C c s with ⟨g, hres⟩ | ⟨n, e, hres⟩
  · cases hf : s.setupOK with
    | false => rw [NewPWM_unset K C s c g f hf hres]
    | true =>
      have hg := resolved_in_table C c g s htab hres
      have hd : s.gpio_direction g ≠ K.OUTPUT := by
        rw [hs hf g hg]
        exact fun h => hO h.symm
      rw [NewPWM_resolved K C s c g f hf hres]
      by_cases h1 : C.pwm_exists s.hw g ≠ 0
      · rw [if_pos h1]
      · rw [if_neg h1, if_pos hd]
  · rw [NewPWM_unresolved K C s c n f e hres]

theorem NewPWM_order (K : Consts) (C : Collab H) (t : State H) (c g : Nat) (f : F32)
    (hset : t.setupOK = true) (hres : (GetGPIONumber C c t).1 = (g, none)) :
    (C.pwm_exists t.hw g ≠ 0 →
      (NewPWM K C c f t).1 = (none, some (Error.pwmAlreadyExists c))) ∧
    (C.pwm_exists t.hw g = 0 → GetGPIODirection g t ≠ K.OUTPUT →
      (NewPWM K C c f t).1 = (none, some (Error.pwmNotAnOutput c))) ∧
    (C.pwm_exists t.hw g = 0 → GetGPIODirection g t = K.OUTPUT →
      F32.le f (F32.fin 0) = true →
      (NewPWM K C c f t).1 = (none, some (Error.pwmFrequencyNotPositive f))) := by
  rw [NewPWM_resolved K C t c g f hset hres]
  simp only [GetGPIODirection]
  refine ⟨?_, ?_, ?_⟩
  · intro h1
    rw [if_pos h1]
  · intro h1 h2
    rw [if_neg (not_not.mpr h1), if_pos h2]
  · intro h1 h2 h3
    rw [if_neg (not_not.mpr h1), if_neg (not_not.mpr h2), if_pos h3]

theorem call_gpio (C : Collab H) (p : PWMObject) (m : PWMCall) (s : State H) :
    (p.call C m s).1.2.gpio = p.gpio := by
  cases m with
  | start d =>
    simp only [PWMObject.call, PWMObject.Start]
    split_ifs <;> rfl
  | changeDutyCycle d =>
    simp only [PWMObject.call, PWMObject.ChangeDutyCycle]
    split_ifs <;> rfl
  | changeFrequency f =>
    simp only [PWMObject.call, PWMObject.ChangeFrequency]
    split_ifs <;> rfl
  | stop => rfl

theorem calls_gpio (C : Collab H) (ms : List PWMCall) :
    ∀ (p : PWMObject) (s : State H), (p.calls C ms s).1.gpio = p.gpio := by
  induction ms with
  | nil => intro p s; rfl
  | cons m ms ih =>
    intro p s
    have h := ih (p.call C m s).1.2 (p.call C m s).2
    simp only [PWMObject.calls, List.foldl_cons] at h ⊢
    rw [h]
    exact call_gpio C p m s

/-- C9: in every state the package reaches from a start with the session flag
false, with the session set up, a valid pull mode and a channel resolving to
pin `g` (the resolver only yields pins of the 54-entry table): `SetupChannel`
returns the "already in use" error exactly when `gpio_function(g)` is neither
0 nor 1 or the recorded direction of `g` is not -1.  Whenever `SetupChannel`
returns an error (any error, in any state), the calls it made contain no
`setup_gpio`, and the hardware, session flag, direction table and numbering
mode are unchanged. -/
theorem SetupChannel_inUse_iff_reachable (K : Consts) (C : Collab H) (s0 s : State H)
    (ops : List Op) (c p g : Nat) (o : Bool)
    (hinit : s0.setupOK = false) (hreach : s = runOps K C ops s0)
    (htab : ∀ m x, (C.get_gpio_number m x).1 = 0 → (C.get_gpio_number m x).2 < 54)
    (hset : s.setupOK = true) (hp : validatePullUpDown K p = none)
    (hres : (GetGPIONumber C c s).1 = (g, none)) :
    ((SetupChannel K C c p o s).1 = some (Error.channelInUse c) ↔
      (C.gpio_function s.hw g ≠ 0 ∧ C.gpio_function s.hw g ≠ 1) ∨
      GetGPIODirection g s ≠ -1) ∧
    (∀ (t : State H) (c1 p1 : Nat) (o1 : Bool), (SetupChannel K C c1 p1 o1 t).1 ≠ none →
      (∃ cs, (SetupChannel K C c1 p1 o1 t).2.trace = t.trace ++ cs ∧
        ∀ g1 d q, Call.setup_gpio g1 d q ∉ cs) ∧
      (SetupChannel K C c1 p1 o1 t).2.hw = t.hw ∧
      (SetupChannel K C c1 p1 o1 t).2.setupOK = t.setupOK ∧
      (SetupChannel K C c1 p1 o1 t).2.gpio_direction = t.gpio_direction ∧
      (SetupChannel K C c1 p1 o1 t).2.gpio_mode = t.gpio_mode) := by
  have hinv : RegistryUnset s := hreach ▸ reachable_unset K C s0 ops hinit
  have hd : GetGPIODirection g s = -1 :=
    hinv hset g (resolved_in_table C c g s htab hres)
  obtain ⟨h1, h2⟩ := SetupChannel_inUse_iff K C s c p g o hset hp hres
  refine ⟨?_, h2⟩
  rw [h1]
  constructor
  · rintro (h | h)
    · exact Or.inl h
    · exact absurd hd h.2
  · rintro (h | h)
    · exact Or.inl h
    · exact absurd hd h

/-- C15: in every state the package reaches from a start with the session flag
false (OUTPUT is not -1 and the resolver only yields pins of the 54-entry
table), `NewPWM(c, f)` returns a handle `p` and a nil error exactly when `c`
resolves to a pin `g`, the session is set up, `pwm_exists(g)` is 0, the
recorded direction of `g` is OUTPUT and `f > 0`, and then `p` has gpio `g`,
frequency `f` and duty cycle 0; there the recorded direction is never OUTPUT,
so `NewPWM` returns a nil handle and an error.  In any set-up state the
already-exists error is reported before the not-an-output error, which is
reported before the invalid-frequency error, and `NewPWM` never changes the
session flag, the direction table or the numbering mode. -/
theorem NewPWM_handle_iff_reachable (K : Consts) (C : Collab H) (s0 s : State H)
    (ops : List Op) (c : Nat) (f : F32)
    (hinit : s0.setupOK = false) (hreach : s = runOps K C ops s0)
    (hO : K.OUTPUT ≠ -1)
    (htab : ∀ m x, (C.get_gpio_number m x).1 = 0 → (C.get_gpio_number m x).2 < 54) :
    (∀ p : PWMObject, (NewPWM K C c f s).1 = (some p, none) ↔
      ∃ g, (GetGPIONumber C c s).1 = (g, none) ∧ s.setupOK = true ∧
        C.pwm_exists s.hw g = 0 ∧ GetGPIODirection g s = K.OUTPUT ∧
        F32.lt (F32.fin 0) f = true ∧
        p = { gpio := g, frequency := f, dutyCycle := F32.fin 0 }) ∧
    ((NewPWM K C c f s).1.1 = none ∧ (NewPWM K C c f s).1.2 ≠ none) ∧
    (∀ (t : State H) (g : Nat), t.setupOK = true → (GetGPIONumber C c t).1 = (g, none) →
      (C.pwm_exists t.hw g ≠ 0 →
        (NewPWM K C c f t).1 = (none, some (Error.pwmAlreadyExists c))) ∧
      (C.pwm_exists t.hw g = 0 → GetGPIODirection g t ≠ K.OUTPUT →
        (NewPWM K C c f t).1 = (none, some (Error.pwmNotAnOutput c))) ∧
      (C.pwm_exists t.hw g = 0 → GetGPIODirection g t = K.OUTPUT →
        F32.le f (F32.fin 0) = true →
        (NewPWM K C c f t).1 = (none, some (Error.pwmFrequencyNotPositive f)))) ∧
    (∀ t : State H, (NewPWM K C c f t).2.setupOK = t.setupOK ∧
      (NewPWM K C c f t).2.gpio_direction = t.gpio_direction ∧
      (NewPWM K C c f t).2.gpio_mode = t.gpio_mode) := by
  have hinv : RegistryUnset s := hreach ▸ reachable_unset K C s0 ops hinit
  have hnone := NewPWM_none_of_unset K C s c f hinv hO htab
  refine ⟨?_, ⟨hnone, NewPWM_nil_handle_has_error K C s c f hnone⟩, ?_, ?_⟩
  · intro p
    constructor
    · intro h
      rw [h] at hnone
      simp at hnone
    · rintro ⟨g, hres, hset, _, hd, _⟩
      have hg := resolved_in_table C c g s htab hres
      simp only [GetGPIODirection, hinv hset g hg] at hd
      exact absurd hd.symm hO
  · intro t g hset hres
    exact NewPWM_order K C t c g f hset hres
  · intro t
    obtain ⟨h1, h2, _⟩ := NewPWM_frame K C t c f
    exact ⟨h1.1, h1.2, h2⟩

/-- C16: in every state the package reaches from a start with the session flag
false (OUTPUT is not -1 and the resolver only yields pins of the 54-entry
table), if `NewPWM(c, f1)` returns a handle then the `NewPWM(c, f2)` right
after it returns the "A PWM already exists" error and no handle; there neither
call returns a handle, so no pin ever has two.  With `pwm_exists(g)` non-zero
after `pwm_start(g)`, in any set-up state `NewPWM(c, f2)` returns the "A PWM
already exists" error right after a successful `Start` on a handle for the pin
that `c` resolves to. -/
theorem NewPWM_at_most_one_handle (K : Consts) (C : Collab H) (s0 s : State H)
    (ops : List Op) (c : Nat) (f1 f2 : F32)
    (hinit : s0.setupOK = false) (hreach : s = runOps K C ops s0)
    (hO : K.OUTPUT ≠ -1)
    (htab : ∀ m x, (C.get_gpio_number m x).1 = 0 → (C.get_gpio_number m x).2 < 54) :
    ((NewPWM K C c f1 s).1.1 ≠ none →
      (NewPWM K C c f2 (NewPWM K C c f1 s).2).1 =
        (none, some (Error.pwmAlreadyExists c))) ∧
    (NewPWM K C c f1 s).1.1 = none ∧
    (NewPWM K C c f2 (NewPWM K C c f1 s).2).1.1 = none ∧
    (∀ (t : State H) (p : PWMObject) (d : F32),
      (∀ h x, C.pwm_exists (C.pwm_start h x) x ≠ 0) →
      t.setupOK = true → (GetGPIONumber C c t).1 = (p.gpio, none) →
      (p.Start C d t).1.1 = none →
      (NewPWM K C c f2 (p.Start C d t).2).1 =
        (none, some (Error.pwmAlreadyExists c))) := by
  have hinv : RegistryUnset s := hreach ▸ reachable_unset K C s0 ops hinit
  have hnone := NewPWM_none_of_unset K C s c f1 hinv hO htab
  have hinv2 : RegistryUnset (NewPWM K C c f1 s).2 := (NewPWM_frame K C s c f1).1.unset hinv
  refine ⟨fun h => absurd hnone h, hnone,
    NewPWM_none_of_unset K C _ c f2 hinv2 hO htab, ?_⟩
  intro t p d hlaw hset hres hstart
  obtain ⟨_, _, h3⟩ := Start_spec C p d t
  have hhw := (h3 hstart).2.2
  have hreg := (PWM_methods_registry C p d t).1
  have hset2 : (p.Start C d t).2.setupOK = true := hreg.1.trans hset
  have hmode : (p.Start C d t).2.gpio_mode = t.gpio_mode := by
    simp only [PWMObject.Start]
    split_ifs <;> rfl
  have hres2 : (GetGPIONumber C c (p.Start C d t).2).1 = (p.gpio, none) :=
    (GetGPIONumber_of_mode C c t _ hmode).trans hres
  have hex : C.pwm_exists (p.Start C d t).2.hw p.gpio ≠ 0 := by
    rw [hhw]
    exact hlaw _ _
  exact (NewPWM_order K C _ c p.gpio f2 hset2 hres2).1 hex

/-- C18: for every handle `p` that `NewPWM` returns in a state the package
reaches from a start with the session flag false (OUTPUT is not -1 and the
resolver only yields pins of the 54-entry table) and every finite sequence
`ms` of calls of `Start`, `ChangeDutyCycle`, `ChangeFrequency` and `Stop` on
it, the handle afterwards has frequency above 0, duty cycle between 0 and 100
and the gpio of `p`; there `NewPWM` returns no handle.  For every handle
whatever, no sequence of method calls changes its gpio field, and
`ChangeFrequency(x)` returns an error exactly when `x <= 0`, leaving handle and
state unchanged when it does. -/
theorem pwm_handle_invariant (K : Consts) (C : Collab H) (s0 s : State H)
    (ops : List Op) (c : Nat) (f : F32) (ms : List PWMCall)
    (hinit : s0.setupOK = false) (hreach : s = runOps K C ops s0)
    (hO : K.OUTPUT ≠ -1)
    (htab : ∀ m x, (C.get_gpio_number m x).1 = 0 → (C.get_gpio_number m x).2 < 54) :
    (∀ (p : PWMObject) (t : State H), (NewPWM K C c f s).1 = (some p, none) →
      F32.lt (F32.fin 0) (p.calls C ms t).1.frequency = true ∧
      F32.le (F32.fin 0) (p.calls C ms t).1.dutyCycle = true ∧
      F32.le (p.calls C ms t).1.dutyCycle (F32.fin 100) = true ∧
      (p.calls C ms t).1.gpio = p.gpio) ∧
    (NewPWM K C c f s).1.1 = none ∧
    (∀ (p : PWMObject) (t : State H), (p.calls C ms t).1.gpio = p.gpio) ∧
    (∀ (p : PWMObject) (x : F32) (t : State H),
      ((p.ChangeFrequency C x t).1.1 ≠ none ↔ F32.le x (F32.fin 0) = true) ∧
      ((p.ChangeFrequency C x t).1.1 ≠ none →
        (p.ChangeFrequency C x t).1.2 = p ∧ (p.ChangeFrequency C x t).2 = t)) := by
  have hinv : RegistryUnset s := hreach ▸ reachable_unset K C s0 ops hinit
  have hnone := NewPWM_none_of_unset K C s c f hinv hO htab
  refine ⟨?_, hnone, calls_gpio C ms, ?_⟩
  · intro p t h
    rw [h] at hnone
    simp at hnone
  · intro p x t
    obtain ⟨h1, h2, _⟩ := ChangeFrequency_spec C p x t
    exact ⟨h1, h2⟩

theorem simCollab_in_table :
    ∀ (m : Int) (x : Nat), (simCollab.get_gpio_number m x).1 = 0 →
      (simCollab.get_gpio_number m x).2 < 54 := by
  intro m x h
  simp only [simCollab] at h ⊢
  split_ifs at h ⊢ with h1 h2
  · simp only
    omega
  · simp at h
  · simp at h

/-! ## Concrete runs on the simulated board -/

/-- C1: on the simulated board, after `Setup()` and `SetMode(BCM)`, the call
`SetupChannel(18, PUD_OFF, true)` returns nil and makes the hardware call
`setup_gpio(18, OUTPUT, PUD_OFF)`, but the recorded direction of pin 18 is
still -1 and not OUTPUT: `SetupChannel` never calls `SetGPIODirection`. -/
theorem SetupChannel_direction_not_recorded :
    simReady.setupOK = true ∧
    (GetGPIONumber simCollab 18 simReady).1 = (18, none) ∧
    validatePullUpDown rpiConsts 0 = none ∧
    (SetupChannel rpiConsts simCollab 18 0 true simReady).1 = none ∧
    (SetupChannel rpiConsts simCollab 18 0 true simReady).2.trace =
      simReady.trace ++ [Call.get_gpio_number 18, Call.gpio_function 18,
        Call.setup_gpio 18 rpiConsts.OUTPUT rpiConsts.PUD_OFF] ∧
    GetGPIODirection 18 (SetupChannel rpiConsts simCollab 18 0 true simReady).2 = -1 ∧
    GetGPIODirection 18 (SetupChannel rpiConsts simCollab 18 0 true simReady).2 ≠
      rpiConsts.OUTPUT := by
  decide

/-- C2 (the claim as stated fails): the simulated board meets the hardware
model of the claim (`gpio_function` is 1 after `setup_gpio(g, OUTPUT, _)` and 0
after `setup_gpio(g, INPUT, _)`), `SetupChannel(18, PUD_OFF, false)` returns
nil, and the `SetupChannel(18, PUD_OFF, false)` right after it returns nil
too, not the "already in use" error. -/
theorem SetupChannel_twice_counterexample :
    (∀ h g p, simCollab.gpio_function (simCollab.setup_gpio h g rpiConsts.OUTPUT p) g = 1) ∧
    (∀ h g p, simCollab.gpio_function (simCollab.setup_gpio h g rpiConsts.INPUT p) g = 0) ∧
    simReady.setupOK = true ∧
    (GetGPIONumber simCollab 18 simReady).1 = (18, none) ∧
    (SetupChannel rpiConsts simCollab 18 0 false simReady).1 = none ∧
    (SetupChannel rpiConsts simCollab 18 0 false
      (SetupChannel rpiConsts simCollab 18 0 false simReady).2).1 = none ∧
    (SetupChannel rpiConsts simCollab 18 0 false
      (SetupChannel rpiConsts simCollab 18 0 false simReady).2).1 ≠
        some (Error.channelInUse 18) := by
  refine ⟨?_, ?_, by decide, by decide, by decide, by decide, by decide⟩
  · intro h g p
    simp [simCollab, rpiConsts]
  · intro h g p
    simp [simCollab, rpiConsts]

/-- C3: the scenario of the specification on the simulated board, whose
`input_gpio` returns the level last written by `output_gpio`: `Setup()`,
`SetMode(BCM)` and `SetupChannel(18, PUD_OFF, true)` return nil, then
`OutputGPIO(18, true)` returns the "isn't set as an output" error, writes
nothing, and `InputGPIO(18)` returns `(false, "isn't set up")`. -/
theorem output_round_trip_fails :
    (∀ h g v, simCollab.input_gpio (simCollab.output_gpio h g v) g = v) ∧
    (Setup rpiConsts simCollab simInit).1 = none ∧
    (SetMode rpiConsts rpiConsts.BCM (Setup rpiConsts simCollab simInit).2).1 = none ∧
    (SetupChannel rpiConsts simCollab 18 0 true simReady).1 = none ∧
    ( OutputGPIO rpiConsts simCollab 18 true
      (SetupChannel rpiConsts simCollab 18 0 true simReady).2).1 =
        some (Error.notAnOutput 18) ∧
    ( OutputGPIO rpiConsts simCollab 18 true
      (SetupChannel rpiConsts simCollab 18 0 true simReady).2).2.hw =
        (SetupChannel rpiConsts simCollab 18 0 true simReady).2.hw ∧
    ( InputGPIO rpiConsts simCollab 18
      ( OutputGPIO rpiConsts simCollab 18 true
        (SetupChannel rpiConsts simCollab 18 0 true simReady).2).2).1 =
        (false, some (Error.channelNotSetUp 18)) := by
  refine ⟨?_, by decide, by decide, by decide, by decide, rfl, by decide⟩
  intro h g v
  simp [simCollab]


/-- C2 (witness of the amended statement): on the simulated board, after
`SetupChannel(18, PUD_UP, false)` a second `SetupChannel(18, PUD_OFF, true)`
returns nil, also with OUTPUT recorded for pin 18. -/
theorem SetupChannel_again_after_input_witness :
    simReady.setupOK = true ∧
    validatePullUpDown rpiConsts 0 = none ∧
    (GetGPIONumber simCollab 18 simReady).1 = (18, none) ∧
    (SetupChannel rpiConsts simCollab 18 2 false simReady).1 = none ∧
    (SetupChannel rpiConsts simCollab 18 0 true
      (SetupChannel rpiConsts simCollab 18 2 false simReady).2).1 = none ∧
    (SetupChannel rpiConsts simCollab 18 0 true
      (SetGPIODirection 18 rpiConsts.OUTPUT
        (SetupChannel rpiConsts simCollab 18 2 false simReady).2)).1 = none :=
  ⟨by decide, by decide, by decide, by decide,
    SetupChannel_again_after_input rpiConsts simCollab simReady 18 2 0 18 true
      rpiConsts.OUTPUT (by intro h x q; simp [simCollab, rpiConsts])
      (by decide) (by decide) (by decide) (by decide)⟩

/-- C4 (witness): in `simOutput18` the recorded direction of pin 18 is OUTPUT
and `OutputGPIO(18, true)` returns nil after the single write
`output_gpio(18, 1)`. -/
theorem OutputGPIO_nil_iff_output_witness :
    simOutput18.setupOK = true ∧
    (GetGPIONumber simCollab 18 simOutput18).1 = (18, none) ∧
    GetGPIODirection 18 simOutput18 = rpiConsts.OUTPUT ∧
    ( OutputGPIO rpiConsts simCollab 18 true simOutput18).1 = none ∧
    ( OutputGPIO rpiConsts simCollab 18 true simOutput18).2.trace =
      simOutput18.trace ++ [Call.get_gpio_number 18, Call.output_gpio 18 1] :=
  ⟨by decide, by decide, by decide,
    (OutputGPIO_nil_iff_output rpiConsts simCollab simOutput18 18 18 true
      (by decide) (by decide)).1.2 (by decide),
    ((OutputGPIO_nil_iff_output rpiConsts simCollab simOutput18 18 18 true
      (by decide) (by decide)).2.2 (by decide)).1⟩

/-- C5 (witness): in `simInput18` the recorded direction of pin 18 is INPUT, so
`InputGPIO(18)` returns no error; the pin reads 0, so the value is false. -/
theorem InputGPIO_error_iff_unconfigured_witness :
    simInput18.setupOK = true ∧
    (GetGPIONumber simCollab 18 simInput18).1 = (18, none) ∧
    ¬ (( InputGPIO rpiConsts simCollab 18 simInput18).1.2 ≠ none) ∧
    ( InputGPIO rpiConsts simCollab 18 simInput18).2.gpio_direction =
      simInput18.gpio_direction :=
  ⟨by decide, by decide,
    fun h => absurd (((InputGPIO_error_iff_unconfigured rpiConsts simCollab simInput18 18 18
      (by decide) (by decide)).1.1 h).1) (by decide),
    (InputGPIO_error_iff_unconfigured rpiConsts simCollab simInput18 18 18
      (by decide) (by decide)).2.2.2.2.1⟩

/-- C6 (witness): in `simOutput18`, `CleanupChannel(18)` returns nil after the
hardware call `setup_gpio(18, INPUT, PUD_OFF)`, leaves -1 recorded for pin 18,
and a second `CleanupChannel(18)` returns nil. -/
theorem CleanupChannel_idempotent_witness :
    simOutput18.setupOK = true ∧
    (GetGPIONumber simCollab 18 simOutput18).1 = (18, none) ∧
    GetGPIODirection 18 simOutput18 ≠ -1 ∧
    (CleanupChannel rpiConsts simCollab 18 simOutput18).1 = none ∧
    GetGPIODirection 18 (CleanupChannel rpiConsts simCollab 18 simOutput18).2 = -1 ∧
    (CleanupChannel rpiConsts simCollab 18
      (CleanupChannel rpiConsts simCollab 18 simOutput18).2).1 = none ∧
    (CleanupChannel rpiConsts simCollab 18 simOutput18).2.trace =
      simOutput18.trace ++ [Call.get_gpio_number 18,
        Call.setup_gpio 18 rpiConsts.INPUT rpiConsts.PUD_OFF] :=
  ⟨by decide, by decide, by decide,
    (CleanupChannel_idempotent rpiConsts simCollab simOutput18 18 18
      (by decide) (by decide)).1,
    (CleanupChannel_idempotent rpiConsts simCollab simOutput18 18 18
      (by decide) (by decide)).2.1,
    (CleanupChannel_idempotent rpiConsts simCollab simOutput18 18 18
      (by decide) (by decide)).2.2.2.1,
    ((CleanupChannel_idempotent rpiConsts simCollab simOutput18 18 18
      (by decide) (by decide)).2.2.2.2.2.2.2.2.2 (by decide)).1⟩

/-- C7 (witness): on the simulated board right after `Setup()`, `SetMode(BCM)`
returns nil, `GetMode()` then returns `(BCM, nil)`, and a following
`SetMode(BOARD)` returns the different-mode error. -/
theorem SetMode_nil_iff_witness :
    (Setup rpiConsts simCollab simInit).2.setupOK = true ∧
    toCInt rpiConsts.BOARD = rpiConsts.BOARD ∧ toCInt rpiConsts.BCM = rpiConsts.BCM ∧
    rpiConsts.BOARD ≠ rpiConsts.BCM ∧ rpiConsts.BOARD ≠ rpiConsts.MODE_UNKNOWN ∧
    rpiConsts.BCM ≠ rpiConsts.MODE_UNKNOWN ∧
    (SetMode rpiConsts rpiConsts.BCM (Setup rpiConsts simCollab simInit).2).1 = none ∧
    (GetMode rpiConsts
      (SetMode rpiConsts rpiConsts.BCM (Setup rpiConsts simCollab simInit).2).2).1 =
        (rpiConsts.BCM, none) ∧
    (SetMode rpiConsts rpiConsts.BOARD
      (SetMode rpiConsts rpiConsts.BCM (Setup rpiConsts simCollab simInit).2).2).1 =
        some Error.differentMode :=
  ⟨by decide, by decide, by decide, by decide, by decide, by decide, by decide,
    (SetMode_nil_iff rpiConsts (Setup rpiConsts simCollab simInit).2 rpiConsts.BCM [10, 11]
      (by decide) (by decide) (by decide) (by decide) (by decide) (by decide)).2.1
      (by decide),
    ((SetMode_nil_iff rpiConsts (Setup rpiConsts simCollab simInit).2 rpiConsts.BCM [10, 11]
      (by decide) (by decide) (by decide) (by decide) (by decide) (by decide)).2.2.2.1
      (by decide)).1⟩

/-- C8 (witness): before `Setup()` the simulated board rejects
`SetupChannel(18, PUD_OFF, true)` and `GetMode()` with the not-set-up error and
stays in its initial state. -/
theorem session_gate_witness :
    simInit.setupOK = false ∧
    SetupChannel rpiConsts simCollab 18 0 true simInit =
      (some Error.setupNotCalled, simInit) ∧
    GetMode rpiConsts simInit =
      ((rpiConsts.MODE_UNKNOWN, some Error.setupNotCalled), simInit) :=
  ⟨by decide,
    (session_gate rpiConsts simCollab simInit 18 0 true true 11 (by decide)).1,
    (session_gate rpiConsts simCollab simInit 18 0 true true 11
      (by decide)).2.2.2.2.2.1⟩


/-- C10 (witness): on the simulated board the first `Setup()` returns nil and a
second `Setup()` returns nil in the same state; `Setup()` in `simReady` changes
nothing. -/
theorem Setup_idempotent_witness :
    simReady.setupOK = true ∧
    (Setup rpiConsts simCollab simInit).1 = none ∧
    Setup rpiConsts simCollab simReady = (none, simReady) ∧
    Setup rpiConsts simCollab (Setup rpiConsts simCollab simInit).2 =
      Setup rpiConsts simCollab simInit :=
  ⟨by decide, by decide,
    (Setup_idempotent rpiConsts simCollab simReady simInit (by decide) (by decide)).1,
    (Setup_idempotent rpiConsts simCollab simReady simInit (by decide) (by decide)).2.2⟩

/-- C13 (the claim as stated fails): on the simulated board `Setup()`,
`SetMode(BCM)`, `Cleanup()` and a second `Setup()` all return nil; after
`Cleanup()` the numbering mode is still BCM, not MODE_UNKNOWN, `GetMode()` then
returns `(BCM, nil)` and `SetMode(BOARD)` returns the different-mode error. -/
theorem Cleanup_mode_counterexample :
    (Setup rpiConsts simCollab simInit).1 = none ∧
    (SetMode rpiConsts rpiConsts.BCM (Setup rpiConsts simCollab simInit).2).1 = none ∧
    simReady.setupOK = true ∧
    (Cleanup rpiConsts simCollab simReady).1 = none ∧
    GetGPIOMode (Cleanup rpiConsts simCollab simReady).2 = rpiConsts.BCM ∧
    GetGPIOMode (Cleanup rpiConsts simCollab simReady).2 ≠ rpiConsts.MODE_UNKNOWN ∧
    (Setup rpiConsts simCollab (Cleanup rpiConsts simCollab simReady).2).1 = none ∧
    (GetMode rpiConsts simAgain).1 = (rpiConsts.BCM, none) ∧
    (GetMode rpiConsts simAgain).1 ≠ (rpiConsts.MODE_UNKNOWN, none) ∧
    (SetMode rpiConsts rpiConsts.BOARD simAgain).1 = some Error.differentMode := by
  set_option maxRecDepth 20000 in
  decide



/-- C17: the duty cycle NaN does not satisfy `0 <= d <= 100`, yet
`Start(NaN)` and `ChangeDutyCycle(NaN)` on the handle `pwm18` return nil, store
NaN as the duty cycle of the handle and pass it to `pwm_set_duty_cycle`. -/
theorem duty_cycle_nan_accepted :
    ¬ (F32.le (F32.fin 0) F32.nan = true ∧ F32.le F32.nan (F32.fin 100) = true) ∧
    (pwm18.Start simCollab F32.nan simOutput18).1 =
      (none, { gpio := 18, frequency := F32.fin 50, dutyCycle := F32.nan }) ∧
    (pwm18.Start simCollab F32.nan simOutput18).2.trace =
      simOutput18.trace ++ [Call.pwm_set_duty_cycle 18 F32.nan, Call.pwm_start 18] ∧
    (pwm18.ChangeDutyCycle simCollab F32.nan simOutput18).1 =
      (none, { gpio := 18, frequency := F32.fin 50, dutyCycle := F32.nan }) ∧
    (pwm18.ChangeDutyCycle simCollab F32.nan simOutput18).2.trace =
      simOutput18.trace ++ [Call.pwm_set_duty_cycle 18 F32.nan] := by
  decide


/-- C20 (the claim as stated fails): with a C library whose `get_gpio_number`
returns code 0 and value 100, `GetGPIONumber(100)` returns `(100, nil)`, and
100 is not below 54. -/
theorem GetGPIONumber_bound_counterexample :
    wideCollab.get_gpio_number simReady.gpio_mode 100 = (0, 100) ∧
    (GetGPIONumber wideCollab 100 simReady).1 = (100, none) ∧
    ¬ (100 < 54) := by
  decide

/-- C11 (witness): on the simulated board, whose C `setup()` returns SETUP_OK,
`Setup()` from the initial state returns nil, sets the session flag and leaves
-1 recorded for pin 18 (the table started zero-initialised). -/
theorem Setup_resets_and_reports_witness :
    simInit.setupOK = false ∧
    GetGPIODirection 18 simInit = 0 ∧
    GetGPIODirection 18 (Setup rpiConsts simCollab simInit).2 = -1 ∧
    (Setup rpiConsts simCollab simInit).1 = none ∧
    (Setup rpiConsts simCollab simInit).2.setupOK = true :=
  ⟨by decide, by decide,
    (Setup_resets_and_reports rpiConsts simCollab simInit (by decide)).1 18 (by decide),
    (Setup_resets_and_reports rpiConsts simCollab simInit (by decide)).2.1.2 (by decide),
    (Setup_resets_and_reports rpiConsts simCollab simInit (by decide)).2.2.1.2 (by decide)⟩

/-- C12 (witness): in `simOutput18`, where only pin 18 has a recorded
direction, `Cleanup()` returns nil, clears the flag and leaves -1 recorded for
pin 18; before the session is set up `Cleanup()` returns the error and the
unchanged state. -/
theorem Cleanup_reverts_configured_pins_witness :
    simOutput18.setupOK = true ∧ simInit.setupOK = false ∧
    (Cleanup rpiConsts simCollab simOutput18).1 = none ∧
    GetGPIODirection 18 (Cleanup rpiConsts simCollab simOutput18).2 = -1 ∧
    (Cleanup rpiConsts simCollab simOutput18).2.setupOK = false ∧
    Cleanup rpiConsts simCollab simInit = (some Error.libraryNotSetUp, simInit) :=
  ⟨by decide, by decide,
    ((Cleanup_reverts_configured_pins rpiConsts simCollab simOutput18).2.2 (by decide)).1,
    ((Cleanup_reverts_configured_pins rpiConsts simCollab simOutput18).2.2
      (by decide)).2.1 18 (by decide),
    ((Cleanup_reverts_configured_pins rpiConsts simCollab simOutput18).2.2
      (by decide)).2.2.1,
    (Cleanup_reverts_configured_pins rpiConsts simCollab simInit).2.1 (by decide)⟩

/-- C13 (witness of the amended statement): on the simulated board, after
`Setup()`, `SetMode(BCM)`, `Cleanup()` and `Setup()`, `GetMode()` returns
`(BCM, nil)` and `SetMode(BOARD)` returns the different-mode error. -/
theorem Cleanup_keeps_mode_witness :
    simReady.setupOK = true ∧
    GetGPIOMode (Cleanup rpiConsts simCollab simReady).2 = GetGPIOMode simReady ∧
    (GetMode rpiConsts simAgain).1 = (rpiConsts.BCM, none) ∧
    (SetMode rpiConsts rpiConsts.BOARD simAgain).1 = some Error.differentMode :=
  ⟨by decide,
    (Cleanup_keeps_mode rpiConsts simCollab simReady simInit
      (Setup rpiConsts simCollab simInit).2 simReady
      (Cleanup rpiConsts simCollab simReady).2 simAgain
      (by decide) (by decide) (by decide) (by decide) (by decide)
      (Prod.ext (by decide) rfl) (Prod.ext (by decide) rfl)
      (Prod.ext (by set_option maxRecDepth 20000 in decide) rfl)
      (Prod.ext (by set_option maxRecDepth 20000 in decide) rfl)).2.1,
    (Cleanup_keeps_mode rpiConsts simCollab simReady simInit
      (Setup rpiConsts simCollab simInit).2 simReady
      (Cleanup rpiConsts simCollab simReady).2 simAgain
      (by decide) (by decide) (by decide) (by decide) (by decide)
      (Prod.ext (by decide) rfl) (Prod.ext (by decide) rfl)
      (Prod.ext (by set_option maxRecDepth 20000 in decide) rfl)
      (Prod.ext (by set_option maxRecDepth 20000 in decide) rfl)).2.2.1,
    (Cleanup_keeps_mode rpiConsts simCollab simReady simInit
      (Setup rpiConsts simCollab simInit).2 simReady
      (Cleanup rpiConsts simCollab simReady).2 simAgain
      (by decide) (by decide) (by decide) (by decide) (by decide)
      (Prod.ext (by decide) rfl) (Prod.ext (by decide) rfl)
      (Prod.ext (by set_option maxRecDepth 20000 in decide) rfl)
      (Prod.ext (by set_option maxRecDepth 20000 in decide) rfl)).2.2.2⟩

/-- C14 (witness): on the simulated board `SetupChannel(18, PUD_UP, true)`
returns nil after the single hardware call `setup_gpio(18, OUTPUT, PUD_OFF)`,
and the pull value 7 is rejected. -/
theorem SetupChannel_programs_hardware_witness :
    (GetGPIONumber simCollab 18 simReady).1 = (18, none) ∧
    (SetupChannel rpiConsts simCollab 18 2 true simReady).1 = none ∧
    (SetupChannel rpiConsts simCollab 18 2 true simReady).2.trace =
      simReady.trace ++ [Call.get_gpio_number 18, Call.gpio_function 18,
        Call.setup_gpio 18 rpiConsts.OUTPUT rpiConsts.PUD_OFF] ∧
    (SetupChannel rpiConsts simCollab 18 7 true simReady).1 =
      some (Error.invalidPullUpDown 7) :=
  ⟨by decide, by decide,
    (SetupChannel_programs_hardware rpiConsts simCollab simReady 18 2 18 true
      (by decide) (by decide)).1,
    ((SetupChannel_programs_hardware rpiConsts simCollab simReady 18 2 18 true
      (by decide) (by decide)).2.2 7 true simReady (by decide)).2.2 (by decide)⟩

/-- C19 (witness): on the simulated board, after `Setup()`, `SetMode(BCM)` and
`SetupChannel(18, PUD_OFF, true)` the session flag is true, -1 is recorded for
pin 18, and `OutputGPIO(18, true)` returns an error. -/
theorem registry_invariant_witness :
    simInit.setupOK = false ∧
    (runOps rpiConsts simCollab
      [Op.setup, Op.setMode 11, Op.setupChannel 18 0 true] simInit).setupOK = true ∧
    GetGPIODirection 18 (runOps rpiConsts simCollab
      [Op.setup, Op.setMode 11, Op.setupChannel 18 0 true] simInit) = -1 ∧
    ( OutputGPIO rpiConsts simCollab 18 true (runOps rpiConsts simCollab
      [Op.setup, Op.setMode 11, Op.setupChannel 18 0 true] simInit)).1 ≠ none :=
  ⟨by decide, by decide,
    (registry_invariant rpiConsts simCollab simInit
      [Op.setup, Op.setMode 11, Op.setupChannel 18 0 true] (by decide)).1
      (by decide) 18 (by decide),
    ((registry_invariant rpiConsts simCollab simInit
      [Op.setup, Op.setMode 11, Op.setupChannel 18 0 true] (by decide)).2
      (by decide) (by decide)
      (by
        intro m x h
        simp only [simCollab] at h ⊢
        split_ifs at h ⊢ with h1 h2
        · simp only
          omega
        · simp at h
        · simp at h)).1 18 true⟩

/-- C20 (witness of the amended statement): on the simulated board in BCM mode
channel 18 resolves to pin 18, the value the resolver returned, below 255. -/
theorem GetGPIONumber_bound_witness :
    (GetGPIONumber simCollab 18 simReady).1 = (18, none) ∧
    18 = (simCollab.get_gpio_number simReady.gpio_mode 18).2 ∧ 18 < 255 :=
  ⟨by decide,
    (GetGPIONumber_bound simCollab simReady 18 18 (by decide)).2.1,
    (GetGPIONumber_bound simCollab simReady 18 18 (by decide)).2.2.1⟩

/-- C9 (witness): on a simulated board whose pin 18 is claimed by an alternate
function, after `Setup()` and `SetMode(BCM)` the call
`SetupChannel(18, PUD_OFF, true)` returns the "already in use" error. -/
theorem SetupChannel_inUse_iff_reachable_witness :
    simAlt.setupOK = false ∧
    (runOps rpiConsts simCollab [Op.setup, Op.setMode 11] simAlt).setupOK = true ∧
    validatePullUpDown rpiConsts 0 = none ∧
    (GetGPIONumber simCollab 18
      (runOps rpiConsts simCollab [Op.setup, Op.setMode 11] simAlt)).1 = (18, none) ∧
    (SetupChannel rpiConsts simCollab 18 0 true
      (runOps rpiConsts simCollab [Op.setup, Op.setMode 11] simAlt)).1 =
        some (Error.channelInUse 18) :=
  ⟨by decide, by decide, by decide, by decide,
    (SetupChannel_inUse_iff_reachable rpiConsts simCollab simAlt
      (runOps rpiConsts simCollab [Op.setup, Op.setMode 11] simAlt)
      [Op.setup, Op.setMode 11] 18 0 18 true (by decide) rfl simCollab_in_table
      (by decide) (by decide) (by decide)).1.2 (Or.inl (by decide))⟩

/-- C15 (witness): on the simulated board after `Setup()`, `SetMode(BCM)` and
`SetupChannel(18, PUD_OFF, true)`, `NewPWM(18, 50)` returns a nil handle and
the not-an-output error. -/
theorem NewPWM_handle_iff_reachable_witness :
    simInit.setupOK = false ∧
    simConfigured.setupOK = true ∧
    (GetGPIONumber simCollab 18 simConfigured).1 = (18, none) ∧
    (NewPWM rpiConsts simCollab 18 (F32.fin 50) simConfigured).1.1 = none ∧
    (NewPWM rpiConsts simCollab 18 (F32.fin 50) simConfigured).1 =
      (none, some (Error.pwmNotAnOutput 18)) :=
  ⟨by decide, by decide, by decide,
    (NewPWM_handle_iff_reachable rpiConsts simCollab simInit simConfigured
      [Op.setup, Op.setMode 11, Op.setupChannel 18 0 true] 18 (F32.fin 50)
      (by decide) rfl (by decide) simCollab_in_table).2.1.1,
    ((NewPWM_handle_iff_reachable rpiConsts simCollab simInit simConfigured
      [Op.setup, Op.setMode 11, Op.setupChannel 18 0 true] 18 (F32.fin 50)
      (by decide) rfl (by decide) simCollab_in_table).2.2.1 simConfigured 18
      (by decide) (by decide)).2.1 (by decide) (by decide)⟩

/-- C16 (witness): on the simulated board after `Setup()`, `SetMode(BCM)` and
`SetupChannel(18, PUD_OFF, true)`, `NewPWM(18, 50)` returns no handle, and after
`Start(50)` on a handle for pin 18, `NewPWM(18, 60)` returns the "A PWM already
exists" error. -/
theorem NewPWM_at_most_one_handle_witness :
    simInit.setupOK = false ∧
    (NewPWM rpiConsts simCollab 18 (F32.fin 50) simConfigured).1.1 = none ∧
    (pwm18.Start simCollab (F32.fin 50) simConfigured).1.1 = none ∧
    (NewPWM rpiConsts simCollab 18 (F32.fin 60)
      (pwm18.Start simCollab (F32.fin 50) simConfigured).2).1 =
        (none, some (Error.pwmAlreadyExists 18)) :=
  ⟨by decide,
    (NewPWM_at_most_one_handle rpiConsts simCollab simInit simConfigured
      [Op.setup, Op.setMode 11, Op.setupChannel 18 0 true] 18 (F32.fin 50) (F32.fin 60)
      (by decide) rfl (by decide) simCollab_in_table).2.1,
    by decide,
    (NewPWM_at_most_one_handle rpiConsts simCollab simInit simConfigured
      [Op.setup, Op.setMode 11, Op.setupChannel 18 0 true] 18 (F32.fin 50) (F32.fin 60)
      (by decide) rfl (by decide) simCollab_in_table).2.2.2 simConfigured pwm18 (F32.fin 50)
      (by intro h x; simp [simCollab]) (by decide) (by decide) (by decide)⟩

/-- C18 (witness): on the simulated board after `Setup()`, `SetMode(BCM)` and
`SetupChannel(18, PUD_OFF, true)`, `NewPWM(18, 50)` returns no handle; the
calls `Start(50)`, `ChangeFrequency(NaN)`, `Stop()` leave the gpio of a handle
for pin 18 at 18, and `ChangeFrequency(0)` returns an error and the handle
unchanged. -/
theorem pwm_handle_invariant_witness :
    simInit.setupOK = false ∧
    (NewPWM rpiConsts simCollab 18 (F32.fin 50) simConfigured).1.1 = none ∧
    (pwm18.calls simCollab
      [PWMCall.start (F32.fin 50), PWMCall.changeFrequency F32.nan, PWMCall.stop]
      simConfigured).1.gpio = 18 ∧
    (pwm18.ChangeFrequency simCollab (F32.fin 0) simConfigured).1.1 ≠ none ∧
    (pwm18.ChangeFrequency simCollab (F32.fin 0) simConfigured).1.2 = pwm18 :=
  ⟨by decide,
    (pwm_handle_invariant rpiConsts simCollab simInit simConfigured
      [Op.setup, Op.setMode 11, Op.setupChannel 18 0 true] 18 (F32.fin 50)
      [PWMCall.start (F32.fin 50), PWMCall.changeFrequency F32.nan, PWMCall.stop]
      (by decide) rfl (by decide) simCollab_in_table).2.1,
    (pwm_handle_invariant rpiConsts simCollab simInit simConfigured
      [Op.setup, Op.setMode 11, Op.setupChannel 18 0 true] 18 (F32.fin 50)
      [PWMCall.start (F32.fin 50), PWMCall.changeFrequency F32.nan, PWMCall.stop]
      (by decide) rfl (by decide) simCollab_in_table).2.2.1 pwm18 simConfigured,
    ((pwm_handle_invariant rpiConsts simCollab simInit simConfigured
      [Op.setup, Op.setMode 11, Op.setupChannel 18 0 true] 18 (F32.fin 50)
      [PWMCall.start (F32.fin 50), PWMCall.changeFrequency F32.nan, PWMCall.stop]
      (by decide) rfl (by decide) simCollab_in_table).2.2.2 pwm18 (F32.fin 0)
      simConfigured).1.2 (by decide),
    (((pwm_handle_invariant rpiConsts simCollab simInit simConfigured
      [Op.setup, Op.setMode 11, Op.setupChannel 18 0 true] 18 (F32.fin 50)
      [PWMCall.start (F32.fin 50), PWMCall.changeFrequency F32.nan, PWMCall.stop]
      (by decide) rfl (by decide) simCollab_in_table).2.2.2 pwm18 (F32.fin 0)
      simConfigured).2 (by decide)).1⟩

end Rpio
